import Mathlib

/-!
Verification development for the NANO conversational banking agent.

The definitions below are a shallow embedding of the Python sources:
`nano/agent.py` (intent analysis, dialogue control, identity-verification
flow), `nano/tools/identity.py` (customer verification), and
`nano/tools/database.py` (balance, history and record updates), over the
data model of `app/database.py`.

Modelling conventions:
  * Strings are ASCII; Python's `str.lower`, `str.strip`, `str.split`,
    substring `in`, and `re` word characters (`[A-Za-z0-9_]`) are embedded
    as executable functions on `List Char`.
  * Monetary amounts (`Float` columns) are modelled as integer cents, and
    timestamps as abstract `Nat` ticks (seconds); no claim below depends on
    monetary float rounding or on calendar formatting.
  * The intent-confidence scores of `_analyze_intent` (`count * 0.3` and
    friends) are IEEE-754 binary64 values and their exact ordering matters
    to the classifier's stable sort (for instance `3 * 0.2` is the double
    `0.6000000000000001`, strictly above `2 * 0.3 = 0.6`). Every reachable
    score lies in `[0.1, 16)`, where every double is an integer multiple of
    `2 ^ (-55)`; scores are therefore embedded as exact `Nat` multiples of
    `2 ^ (-55)` (`w030 = ⌊0.3 * 2 ^ 55⌉` etc.), and the double
    multiplication `count * weight` as exact integer multiplication
    followed by correct rounding to the 53-bit significand of the result's
    binade (round half to even), which is bit-for-bit the IEEE product.
  * The SQL pattern match `Customer.full_name.ilike(f"%{full_name}%")` is
    embedded with its wildcard semantics: `%` matches any character
    sequence and `_` any single character, case-insensitively.
  * The mutable SQLAlchemy store is threaded explicitly: an operation takes
    a `Bank` (customers and transactions) and returns the updated `Bank`.
    The in-memory per-session dict of `NANOAgent.active_sessions` is the
    `SessionState` record; the persisted `sessions`-table mirror, session
    timeout and audit logging are side channels no claim observes.
  * Python exceptions that `process_message` catches are modelled with
    `Except String`.
-/

namespace Nano

/-! ### Characters and strings (Python `str` helpers) -/

/-- ASCII lower-casing of one character, as `str.lower` acts on ASCII. -/
def lcChar (c : Char) : Char :=
  if 'A' ≤ c ∧ c ≤ 'Z' then Char.ofNat (c.toNat + 32) else c

/-- `s.lower()` on ASCII strings. -/
def lowerStr (s : String) : String := String.mk (s.toList.map lcChar)

def containsSubAux (needle : List Char) : List Char → Bool
  | [] => needle.isEmpty
  | c :: cs => needle.isPrefixOf (c :: cs) || containsSubAux needle cs

/-- Python's substring test `needle in hay`. -/
def containsSub (hay needle : String) : Bool := containsSubAux needle.toList hay.toList

def findSubAux (needle : List Char) : List Char → Nat → Option Nat
  | [], i => if needle.isEmpty then some i else none
  | c :: cs, i => if needle.isPrefixOf (c :: cs) then some i else findSubAux needle cs (i + 1)

/-- Python's `hay.find(needle)` (index of the first occurrence). -/
def findSub (hay needle : String) : Option Nat := findSubAux needle.toList hay.toList 0

/-- Characters `str.split()` treats as whitespace (ASCII). -/
def isPySpace (c : Char) : Bool :=
  c == ' ' || c == '\t' || c == '\n' || c == '\x0d' || c == '\x0b' || c == '\x0c'

def splitWsAux (cur : List Char) : List Char → List String
  | [] => if cur.isEmpty then [] else [String.mk cur.reverse]
  | c :: cs =>
      if isPySpace c then
        if cur.isEmpty then splitWsAux [] cs else String.mk cur.reverse :: splitWsAux [] cs
      else splitWsAux (c :: cur) cs

/-- Python's `s.split()` (split on whitespace runs, no empty words). -/
def splitWs (s : String) : List String := splitWsAux [] s.toList

/-- Python's `s.strip(chars)`: drop the given characters from both ends. -/
def stripChars (cs : List Char) (s : String) : String :=
  String.mk (((s.toList.dropWhile (cs.contains ·)).reverse.dropWhile (cs.contains ·)).reverse)

/-- Python's `s.strip()` (whitespace from both ends). -/
def stripWs (s : String) : String :=
  String.mk (((s.toList.dropWhile isPySpace).reverse.dropWhile isPySpace).reverse)

/-- Python's `s[n:]` slice. -/
def dropStr (s : String) (n : Nat) : String := String.mk (s.toList.drop n)

/-- Python's `s.isdigit()` restricted to ASCII: nonempty and all digits. -/
def isDigitStr (s : String) : Bool := !s.toList.isEmpty && s.toList.all (·.isDigit)

/-- Python's `s.isalpha()` restricted to ASCII: nonempty and all letters. -/
def isAlphaStr (s : String) : Bool := !s.toList.isEmpty && s.toList.all (·.isAlpha)

/-- Python's `w.replace(",", "").replace(".", "")`. -/
def dropCommaDot (s : String) : String :=
  String.mk (s.toList.filter (fun c => !(c == ',' || c == '.')))

/-- `" ".join(ws)`. -/
def joinSpace : List String → String
  | [] => ""
  | [w] => w
  | w :: ws => w ++ " " ++ joinSpace ws

/-- The last `n` characters of a string (`s[-n:]`). -/
def lastChars (n : Nat) (s : String) : String :=
  String.mk ((s.toList.reverse.take n).reverse)

/-- A word character of the `re` module on ASCII: `[A-Za-z0-9_]`. -/
def isWordChar (c : Char) : Bool := c.isAlphanum || c == '_'

/-! ### The account-number pattern `\b\d{6,}\b`

`re.findall(r"\b\d{6,}\b", message)` returns, left to right, exactly the
maximal digit runs of length ≥ 6 whose neighbours (if any) are non-word
characters: a run glued to a letter, digit or underscore on either side has
no word boundary there, and no match can start or end inside a run.
`findRunsAux ok cur rest` scans `rest`, where `cur` is the reversed digit
run read so far and `ok` records whether that run started at a word
boundary. -/

def findRunsAux (ok : Bool) (cur : List Char) : List Char → List (List Char)
  | [] => if ok && decide (6 ≤ cur.length) then [cur.reverse] else []
  | c :: cs =>
      if c.isDigit then findRunsAux ok (c :: cur) cs
      else
        let rest := findRunsAux (!isWordChar c) [] cs
        if ok && decide (6 ≤ cur.length) && !isWordChar c then cur.reverse :: rest else rest

/-- All matches of the account-number pattern in the message. -/
def findAccounts (s : String) : List String :=
  (findRunsAux true [] s.toList).map String.mk

/-! ### The phone pattern `\b\d{3}[-.]?\d{3}[-.]?\d{4}\b`

Separators are never digits, so greedy matching needs no backtracking. -/

def matchDigits : Nat → List Char → Option (List Char × List Char)
  | 0, rest => some ([], rest)
  | _ + 1, [] => none
  | n + 1, c :: cs =>
      if c.isDigit then (matchDigits n cs).map (fun p => (c :: p.1, p.2)) else none

def matchSep : List Char → List Char × List Char
  | [] => ([], [])
  | c :: cs => if c == '-' || c == '.' then ([c], cs) else ([], c :: cs)

def boundaryAfter : List Char → Bool
  | [] => true
  | c :: _ => !isWordChar c

/-- Try the phone pattern at the current position (left boundary checked by
the caller); returns the matched text and the rest. -/
def matchPhoneHere (l : List Char) : Option (List Char × List Char) := do
  let (d1, r1) ← matchDigits 3 l
  let (s1, r2) := matchSep r1
  let (d2, r3) ← matchDigits 3 r2
  let (s2, r4) := matchSep r3
  let (d3, r5) ← matchDigits 4 r4
  if boundaryAfter r5 then some (d1 ++ s1 ++ d2 ++ s2 ++ d3, r5) else none

def scanPhonesAux : Nat → Bool → List Char → List String
  | 0, _, _ => []
  | _ + 1, _, [] => []
  | fuel + 1, prevW, c :: cs =>
      if !prevW && c.isDigit then
        match matchPhoneHere (c :: cs) with
        | some (m, rest) => String.mk m :: scanPhonesAux fuel true rest
        | none => scanPhonesAux fuel true cs
      else scanPhonesAux fuel (isWordChar c) cs

/-- All matches of the phone pattern (non-overlapping, left to right). -/
def findPhones (s : String) : List String :=
  scanPhonesAux (s.toList.length + 1) false s.toList

/-! ### The email pattern

`\b[A-Za-z0-9._%+-]+@[A-Za-z0-9.-]+\.[A-Z|a-z]{2,}\b`, rendered as a
deterministic greedy matcher (local part, `@`, domain whose tail is a dot
followed by ≥ 2 letters). No claim below depends on its output; it is
carried so that entity extraction stays total and executable. -/

def isLocalChar (c : Char) : Bool :=
  c.isAlphanum || c == '.' || c == '_' || c == '%' || c == '+' || c == '-'

def isDomChar (c : Char) : Bool := c.isAlphanum || c == '.' || c == '-'

def splitLastDot (l : List Char) : Option (List Char × List Char) :=
  match (l.reverse.dropWhile (· != '.')) with
  | [] => none
  | _ :: rdomain => some (rdomain.reverse, (l.reverse.takeWhile (· != '.')).reverse)

def matchEmailHere (l : List Char) : Option (List Char × List Char) :=
  let local_ := l.takeWhile isLocalChar
  let r1 := l.dropWhile isLocalChar
  if local_.isEmpty then none
  else
    match r1 with
    | '@' :: r2 =>
        let dom := r2.takeWhile isDomChar
        let r3 := r2.dropWhile isDomChar
        match splitLastDot dom with
        | some (d1, tld) =>
            if !d1.isEmpty && decide (2 ≤ tld.length) && tld.all (·.isAlpha)
                && boundaryAfter r3 then
              some (local_ ++ '@' :: dom, r3)
            else none
        | none => none
    | _ => none

def scanEmailsAux : Nat → Bool → List Char → List String
  | 0, _, _ => []
  | _ + 1, _, [] => []
  | fuel + 1, prevW, c :: cs =>
      if !prevW && isLocalChar c then
        match matchEmailHere (c :: cs) with
        | some (m, rest) => String.mk m :: scanEmailsAux fuel true rest
        | none => scanEmailsAux fuel (isWordChar c) cs
      else scanEmailsAux fuel (isWordChar c) cs

/-- All matches of the email pattern (non-overlapping, left to right). -/
def findEmails (s : String) : List String :=
  scanEmailsAux (s.toList.length + 1) false s.toList

/-! ### Data model (`app/database.py`)

`Customer` and `Transaction` rows; `Bank` is the relational store the tools
read and write. Amounts are integer cents, timestamps abstract seconds. -/

structure Customer where
  customer_id : String
  full_name : String
  account_number : String
  email : String := ""
  phone : Option String := none
  address : Option String := none
  security_question : String
  security_answer : String
  account_balance : Nat := 0
  account_status : String := "active"
  is_verified : Bool := false
  login_attempts : Nat := 0
  last_login : Option Nat := none
  updated_at : Option Nat := none
  deriving Repr, DecidableEq

structure Transaction where
  transaction_id : String
  customer_id : String
  amount : Nat
  transaction_type : String
  description : String := ""
  balance_after : Nat
  created_at : Nat
  status : String := "completed"
  deriving Repr, DecidableEq

structure Bank where
  customers : List Customer := []
  transactions : List Transaction := []
  deriving Repr, DecidableEq

/-- Replace the first element satisfying `p` (SQLAlchemy mutates the row
object `query(...).first()` returned). -/
def updateFirst (p : Customer → Bool) (f : Customer → Customer) :
    List Customer → List Customer
  | [] => []
  | c :: cs => if p c then f c :: cs else c :: updateFirst p f cs

/-- Dollars-and-cents rendering of an amount, `f"${x:.2f}"`. -/
def formatMoney (cents : Nat) : String :=
  let frac := cents % 100
  "$" ++ toString (cents / 100) ++ "." ++ (if frac < 10 then "0" else "") ++ toString frac

/-! ### Identity verification (`nano/tools/identity.py`) -/

/-- One `_`-wildcard pattern segment (no `%`) consuming a prefix of the
text: a literal character matches itself and `_` matches any character;
returns the remaining text on success. -/
def segConsume : List Char → List Char → Option (List Char)
  | [], t => some t
  | _ :: _, [] => none
  | p :: ps, c :: ts => if p == '_' || p == c then segConsume ps ts else none

/-- Earliest position at which the segment matches, returning the text
remaining after the matched slice. -/
def findSeg (seg : List Char) : List Char → Option (List Char)
  | [] => segConsume seg []
  | c :: ts =>
      match segConsume seg (c :: ts) with
      | some r => some r
      | none => findSeg seg ts

/-- SQL `LIKE` with a pattern of the shape `%seg₀%seg₁%…%segₙ%`: the
segments must occur in order, each matched greedily at its earliest
position (equivalent to the existence of any in-order placement, since
every segment floats between two `%`). -/
def segsInOrder : List (List Char) → List Char → Bool
  | [], _ => true
  | seg :: rest, t =>
      match findSeg seg t with
      | some r => segsInOrder rest r
      | none => false

/-- Split the fragment at its `%` wildcards into `_`-only segments. -/
def splitPercentAux (cur : List Char) : List Char → List (List Char)
  | [] => [cur.reverse]
  | c :: cs =>
      if c == '%' then cur.reverse :: splitPercentAux [] cs
      else splitPercentAux (c :: cur) cs

/-- `stored.ilike(f"%{frag}%")`: case-insensitive SQL `LIKE` against the
pattern `'%' + frag + '%'`, where `%` in `frag` matches any character
sequence and `_` any single character. -/
def ilikeContains (stored frag : String) : Bool :=
  segsInOrder (splitPercentAux [] (lowerStr frag).toList) (lowerStr stored).toList

/-- The row filter of `verify_customer_identity`:
`Customer.account_number == account_number` together with
`Customer.full_name.ilike(f"%{full_name}%")` (case-insensitive `LIKE`,
with live `%`/`_` wildcards in the provided name). -/
def customerFilter (full_name account_number : String) (c : Customer) : Bool :=
  c.account_number == account_number && ilikeContains c.full_name full_name

/-- `db.query(Customer).filter(...).first()` for the verification lookup. -/
def lookupCustomer (b : Bank) (full_name account_number : String) : Option Customer :=
  b.customers.find? (customerFilter full_name account_number)

/-- `_verify_security_answer`: case-insensitive comparison after stripping. -/
def answerMatches (stored provided : String) : Bool :=
  stripWs (lowerStr stored) == stripWs (lowerStr provided)

structure VerifyResult where
  verified : Bool
  message : String
  requires_security_question : Bool := false
  customer_id : Option String := none
  customer_name : Option String := none
  remaining_attempts : Option Int := none
  deriving Repr, DecidableEq

def notFoundMsg : String :=
  "Customer information not found. Please check your details or visit a branch."

def inactiveMsg : String := "Account is not active. Please contact customer service."

def lockedMsg : String := "Too many failed verification attempts. Please visit a branch."

def wrongAnswerMsg : String := "Incorrect security answer. Please try again."

def securityQuestionMsg (q : String) : String :=
  "Please answer your security question: " ++ q

def welcomeMsg (name : String) : String :=
  "Identity verified successfully. Welcome, " ++ name ++ "!"

/-- `IdentityVerificationTools.verify_customer_identity`. `ans = none` is the
first (name+account) step; the security answer, when present, is the raw
user message. Returns the result and the updated store. -/
def verifyCustomerIdentity (now : Nat) (b : Bank) (full_name account_number : String)
    (ans : Option String) : VerifyResult × Bank :=
  match lookupCustomer b full_name account_number with
  | none => ({ verified := false, message := notFoundMsg }, b)
  | some c =>
      if c.account_status != "active" then
        ({ verified := false, message := inactiveMsg }, b)
      else if 3 ≤ c.login_attempts then
        ({ verified := false, message := lockedMsg }, b)
      else
        match ans with
        | none =>
            ({ verified := false, message := securityQuestionMsg c.security_question,
               requires_security_question := true, customer_id := some c.customer_id }, b)
        | some a =>
            if a == "" then
              -- `if not security_answer` also catches the empty string
              ({ verified := false, message := securityQuestionMsg c.security_question,
                 requires_security_question := true, customer_id := some c.customer_id }, b)
            else if !answerMatches c.security_answer a then
              let customers' := updateFirst (customerFilter full_name account_number)
                (fun c => { c with login_attempts := c.login_attempts + 1 }) b.customers
              ({ verified := false, message := wrongAnswerMsg,
                 requires_security_question := true,
                 remaining_attempts := some ((3 : Int) - (c.login_attempts + 1)) },
               { b with customers := customers' })
            else
              let promote (c : Customer) : Customer :=
                { c with login_attempts := 0, last_login := some now, is_verified := true }
              let customers' := updateFirst (customerFilter full_name account_number)
                promote b.customers
              ({ verified := true, message := welcomeMsg c.full_name,
                 customer_id := some c.customer_id, customer_name := some c.full_name },
               { b with customers := customers' })

/-! ### Database operation tools (`nano/tools/database.py`) -/

structure UpdateResult where
  success : Bool
  message : String
  updated_fields : List String := []
  customer_name : Option String := none
  deriving Repr, DecidableEq

/-- The whitelist `updatable_fields` of `update_customer_record`. -/
def updatableFields : List String := ["email", "phone", "address"]

/-- One `setattr(customer, field, value)` step, restricted (as in the
source) to the three updatable fields. -/
def setField (c : Customer) (field value : String) : Customer :=
  if field == "email" then { c with email := value }
  else if field == "phone" then { c with phone := some value }
  else if field == "address" then { c with address := some value }
  else c

/-- The update loop: apply the updatable entries in order and collect the
audit descriptions of the fields that were set. -/
def applyUpdates (c : Customer) : List (String × String) → Customer × List String
  | [] => (c, [])
  | (f, v) :: rest =>
      if updatableFields.contains f then
        ((applyUpdates (setField c f v) rest).1,
         (f ++ ": updated") :: (applyUpdates (setField c f v) rest).2)
      else applyUpdates c rest

/-- `DatabaseOperationTools.update_customer_record`. -/
def updateCustomerRecord (now : Nat) (b : Bank) (customer_id : String)
    (updates : List (String × String)) : UpdateResult × Bank :=
  match b.customers.find? (fun c => c.customer_id == customer_id) with
  | none => ({ success := false, message := "Customer not found" }, b)
  | some c =>
      if ((applyUpdates c updates).2).isEmpty then
        ({ success := false, message := "No valid fields to update" }, b)
      else
        let customers' := updateFirst (fun x => x.customer_id == customer_id)
          (fun _ => { (applyUpdates c updates).1 with updated_at := some now }) b.customers
        ({ success := true, message := "Customer record updated successfully",
           updated_fields := updates.map (·.1), customer_name := some c.full_name },
         { b with customers := customers' })

structure BalanceResult where
  success : Bool
  message : String := ""
  customer_name : String := ""
  account_number : String := ""
  current_balance : Nat := 0
  balance_status : String := ""
  deriving Repr, DecidableEq

/-- Most recent transaction of a customer (`order_by(desc(created_at)).first()`). -/
def lastTransaction (b : Bank) (customer_id : String) : Option Transaction :=
  (b.transactions.filter (fun t => t.customer_id == customer_id)).foldl
    (fun best t =>
      match best with
      | none => some t
      | some u => if u.created_at < t.created_at then some t else best)
    none

/-- `DatabaseOperationTools.query_account_balance` (read-only). -/
def queryAccountBalance (b : Bank) (customer_id : String) : BalanceResult :=
  match b.customers.find?
      (fun c => c.customer_id == customer_id && c.account_status == "active") with
  | none => { success := false, message := "Customer account not found or inactive" }
  | some c =>
      let status :=
        match lastTransaction b customer_id with
        | some t => if t.balance_after != c.account_balance then "needs_reconciliation"
                    else "verified"
        | none => "verified"
      { success := true, customer_name := c.full_name, account_number := c.account_number,
        current_balance := c.account_balance, balance_status := status }

structure HistoryResult where
  success : Bool
  transactions : List Transaction := []
  total_transactions : Nat := 0
  total_credits : Nat := 0
  total_debits : Nat := 0
  net_change : Int := 0
  deriving Repr, DecidableEq

def insertByTimeDesc (t : Transaction) : List Transaction → List Transaction
  | [] => [t]
  | u :: us => if u.created_at ≥ t.created_at then u :: insertByTimeDesc t us
               else t :: u :: us

def sortByTimeDesc : List Transaction → List Transaction
  | [] => []
  | t :: ts => insertByTimeDesc t (sortByTimeDesc ts)

/-- `DatabaseOperationTools.transaction_history` (read-only): the customer's
transactions of the last `days` days, newest first, capped at `limit`. -/
def transactionHistory (now : Nat) (b : Bank) (customer_id : String)
    (limit : Nat := 10) (days : Nat := 30) : HistoryResult :=
  let start := now - days * 86400
  let txns := (sortByTimeDesc (b.transactions.filter
      (fun t => t.customer_id == customer_id && start ≤ t.created_at))).take limit
  { success := true, transactions := txns, total_transactions := txns.length,
    total_credits := (txns.filter (fun t => t.transaction_type == "credit")).foldl
      (fun s t => s + t.amount) 0,
    total_debits := (txns.filter (fun t => t.transaction_type == "debit")).foldl
      (fun s t => s + t.amount) 0,
    net_change := ((txns.filter (fun t => t.transaction_type == "credit")).foldl
      (fun s t => s + t.amount) 0 : Int) -
      ((txns.filter (fun t => t.transaction_type == "debit")).foldl
      (fun s t => s + t.amount) 0 : Int) }

/-! ### Intent analysis (`NANOAgent._analyze_intent`)

Scores are the program's IEEE-754 binary64 values, represented exactly:
every reachable score lies in `[0.1, 16)`, where each double is an integer
multiple of `2 ^ (-55)`, so a score is the `Nat` it yields when scaled by
`2 ^ 55`. The constants `w010 … w080` below are the doubles nearest to the
literals `0.1 … 0.8` (so `w020 = 7205759403792794` since the double `0.2`
is `0.200000000000000011102…`), and `mulFloat k w` is the correctly
rounded (round half to even) product of the exact integer `k` with the
double `w` — bit-for-bit the Python float product `k * 0.2` etc. In
particular `mulFloat 3 w020 > mulFloat 2 w030` (Python's
`3*0.2 = 0.6000000000000001 > 2*0.3 = 0.6`), so nominally equal decimal
scores need not tie. -/

/-- The IEEE-754 binary64 values nearest `0.1`, `0.2`, `0.3`, `0.35`,
`0.4`, `0.5` and `0.8`, scaled by `2 ^ 55` (exactly representable: each of
these doubles is a multiple of `2 ^ (-55)`). -/
def w010 : Nat := 3602879701896397

def w020 : Nat := 7205759403792794

def w030 : Nat := 10808639105689190

def w035 : Nat := 12610078956637388

def w040 : Nat := 14411518807585588

def w050 : Nat := 18014398509481984

def w080 : Nat := 28823037615171176

/-- Round `n / 2 ^ shift` to the nearest integer, ties to even — the IEEE
default rounding applied to the discarded low bits. -/
def roundHalfEven (n : Nat) (shift : Nat) : Nat :=
  let d := 2 ^ shift
  let q := n / d
  let r := n % d
  if 2 * r < d then q
  else if d < 2 * r then q + 1
  else if q % 2 == 0 then q else q + 1

/-- The IEEE-754 binary64 product of the exact integer `k` with the double
`w / 2 ^ 55`, scaled by `2 ^ 55`. The exact product `k * w` (scale
`2 ^ 55`) is rounded to the 53-bit significand of its binade: for a value
in `[2 ^ e, 2 ^ (e+1))` the representable doubles are the multiples of
`2 ^ (e - 52)`, i.e. of `2 ^ (e + 3)` at this scale. Values below `0.25`
(all reachable scores are at least `0.2`) are already exact at scale
`2 ^ 55`. -/
def mulFloat (k : Nat) (w : Nat) : Nat :=
  let n := k * w
  if n < 2 ^ 53 then n
  else
    let shift :=
      if n < 2 ^ 54 then 1 else if n < 2 ^ 55 then 2 else if n < 2 ^ 56 then 3
      else if n < 2 ^ 57 then 4 else if n < 2 ^ 58 then 5 else if n < 2 ^ 59 then 6
      else 7
    roundHalfEven n shift * 2 ^ shift

def identityKeywords : List String :=
  ["verify", "identity", "login", "authenticate", "who am i", "my name"]

def balanceKeywords : List String :=
  ["balance", "how much", "account total", "money", "funds", "available", "checking",
   "savings"]

def transactionKeywords : List String :=
  ["history", "transactions", "recent", "statements", "spent", "charges", "deposits",
   "withdrawals", "activity"]

def updateKeywords : List String := ["update", "change", "modify", "new", "correct"]

def contactKeywords : List String := ["address", "phone", "email", "number", "contact"]

def fileKeywords : List String :=
  ["upload", "document", "file", "statement", "download", "pdf", "attachment", "scan",
   "image", "photo"]

def ocrKeywords : List String :=
  ["read", "extract", "text", "ocr", "analyze", "check", "receipt"]

def helpKeywords : List String :=
  ["help", "how", "what", "explain", "support", "assist", "can you"]

def escalationKeywords : List String :=
  ["human", "representative", "manager", "escalate", "complain", "supervisor", "agent",
   "person", "speak to"]

def greetingKeywords : List String :=
  ["hello", "hi", "good morning", "good afternoon", "good evening", "hey", "greetings"]

/-- `sum(1 for kw in kws if kw in message_lower)`. -/
def kwScore (kws : List String) (ml : String) : Nat :=
  (kws.filter (fun k => containsSub ml k)).length

/-- The candidate `(intent, score)` list in the order `_analyze_intent`
appends its entries (the declaration order of the categories). -/
def intentCandidates (message : String) : List (String × Nat) :=
  let ml := lowerStr message
  let identity_score := kwScore identityKeywords ml
  let l1 : List (String × Nat) :=
    if 0 < identity_score then
      [("identity_verification", mulFloat identity_score w030)]
    else []
  let l2 := l1 ++
    (if (findAccounts message).isEmpty then [] else [("identity_verification", w050)])
  let balance_score := kwScore balanceKeywords ml
  let l3 := l2 ++
    (if 0 < balance_score then [("balance_inquiry", mulFloat balance_score w040)]
     else [])
  let transaction_score := kwScore transactionKeywords ml
  let l4 := l3 ++
    (if 0 < transaction_score then
      [("transaction_history", mulFloat transaction_score w035)]
     else [])
  let update_score := kwScore updateKeywords ml
  let contact_score := kwScore contactKeywords ml
  let l5 := l4 ++
    (if 0 < update_score || 0 < contact_score then
      [("update_information", mulFloat (update_score + contact_score) w030)]
     else [])
  let file_score := kwScore fileKeywords ml
  let ocr_score := kwScore ocrKeywords ml
  let l6 := l5 ++
    (if 0 < file_score || 0 < ocr_score then
      (if 0 < ocr_score then [("document_ocr", mulFloat (file_score + ocr_score) w040)]
       else [("file_management", mulFloat file_score w035)])
     else [])
  let help_score := kwScore helpKeywords ml
  let l7 := l6 ++
    (if 0 < help_score then [("general_support", mulFloat help_score w020)] else [])
  let escalation_score := kwScore escalationKeywords ml
  let l8 := l7 ++
    (if 0 < escalation_score then [("escalation", mulFloat escalation_score w050)]
     else [])
  l8 ++
    (if greetingKeywords.any (containsSub ml) && (splitWs ml).length < 10 then
      [("greeting", w080)]
     else [])

structure Entities where
  account_number : Option String := none
  update_field : Option String := none
  new_email : Option String := none
  new_phone : Option String := none
  deriving Repr, DecidableEq

/-- The entity extraction woven through `_analyze_intent`: the first
account-number match, and the update-target entities when an
update/contact keyword is present (`email`, then `phone`/`number`
overriding, then `address` overriding). -/
def intentEntities (message : String) : Entities :=
  let ml := lowerStr message
  let e0 : Entities := {}
  let e1 := match (findAccounts message).head? with
    | some a => { e0 with account_number := some a }
    | none => e0
  let update_score := kwScore updateKeywords ml
  let contact_score := kwScore contactKeywords ml
  if 0 < update_score || 0 < contact_score then
    let e2 := if containsSub ml "email" then
        let e := { e1 with update_field := some "email" }
        match (findEmails message).head? with
        | some m => { e with new_email := some m }
        | none => e
      else e1
    let e3 := if containsSub ml "phone" || containsSub ml "number" then
        let e := { e2 with update_field := some "phone" }
        match (findPhones message).head? with
        | some m => { e with new_phone := some m }
        | none => e
      else e2
    if containsSub ml "address" then { e3 with update_field := some "address" } else e3
  else e1

/-- Stable insertion for the descending sort: an element passes the ones
strictly above it and stops in front of the first one with an equal or
smaller score, so earlier candidates with equal scores stay in front. -/
def insertDesc (p : String × Nat) : List (String × Nat) → List (String × Nat)
  | [] => [p]
  | q :: qs => if p.2 < q.2 then q :: insertDesc p qs else p :: q :: qs

/-- `intents.sort(key=lambda x: x[1], reverse=True)` — Python's sort is
stable, embedded as a stable insertion sort by descending score. -/
def sortIntentsDesc : List (String × Nat) → List (String × Nat)
  | [] => []
  | p :: ps => insertDesc p (sortIntentsDesc ps)

structure IntentAnalysis where
  primary_intent : String
  confidence : Nat
  all_intents : List (String × Nat)
  entities : Entities
  deriving Repr, DecidableEq

/-- `NANOAgent._analyze_intent`: ranked intents, top intent (fallback
`general_inquiry` with confidence 0.1 when no candidate), and entities. -/
def analyzeIntent (message : String) : IntentAnalysis :=
  let sorted := sortIntentsDesc (intentCandidates message)
  { primary_intent := ((sorted.head?).map Prod.fst).getD "general_inquiry",
    confidence := ((sorted.head?).map Prod.snd).getD w010,
    all_intents := sorted,
    entities := intentEntities message }

/-! ### Session state and responses (`NANOAgent`) -/

structure Turn where
  role : String
  message : String
  deriving Repr, DecidableEq

/-- The in-memory per-session record (`active_sessions[sid]` plus the
`awaiting_security_answer` / `temp_*` keys the verification flow stores in
it) together with the persisted conversation transcript the agent reloads
on every message. Keys a Python dict does not hold yet are `none`/`false`. -/
structure SessionState where
  is_verified : Bool := false
  customer_id : Option String := none
  awaiting_security_answer : Bool := false
  temp_customer_id : Option String := none
  temp_name : Option String := none
  temp_account : Option String := none
  transcript : List Turn := []
  deriving Repr, DecidableEq

/-- `create_session`: a fresh session is unverified and holds no pending
verification attempt. -/
def initSession (customer_id : Option String := none) : SessionState :=
  { customer_id := customer_id }

/-- The response dict of `process_message`; absent keys are the defaults. -/
structure AgentResponse where
  response : String
  requires_verification : Bool := false
  requires_security_question : Bool := false
  verified : Bool := false
  verification_failed : Bool := false
  error : Bool := false
  next_intent : Option String := none
  tools_used : List String := []
  customer_id : Option String := none
  escalation_id : Option String := none
  deriving Repr, DecidableEq

/-- Ambient values the Python code reads from the clock and the session id
(used only in audit strings, timestamps and the escalation ticket id). -/
structure Ctx where
  now : Nat := 0
  today : String := "19700101"
  sessionId : String := "session"
  deriving Repr, DecidableEq

/-- Python truthiness of an optional string. -/
def optTruthy : Option String → Bool
  | none => false
  | some s => s != ""

/-! ### Credential extraction (`_handle_identity_verification`, lines 383–411) -/

/-- `word.isdigit() and len(word) >= 6` over `message.split()`. -/
def extractAccountFallback (message : String) : Option String :=
  (splitWs message).find? (fun w => isDigitStr w && decide (6 ≤ w.length))

def credentialStopWords : List String := ["and", "my", "account", "number"]

def nameStopWords : List String := ["my", "name", "is", "and", "account", "number"]

/-- The `"name is"` extraction path: up to three words after the phrase,
with filler words removed and punctuation stripped; an empty result is
falsy in Python and is `none` here. -/
def nameIsExtract (message : String) : Option String :=
  match findSub (lowerStr message) "name is" with
  | none => none
  | some i =>
      let name_part := (splitWs (dropStr message (i + 7))).take 3
      let clean := name_part.filter (fun w => !(credentialStopWords.contains (lowerStr w)))
      let fn := stripChars ['.', ',', '!', '?'] (joinSpace clean)
      if fn == "" then none else some fn

def collectBeforeAccount (acct : String) : List String → List String
  | [] => []
  | w :: ws =>
      if w == acct then []
      else
        let cw := dropCommaDot w
        if isAlphaStr cw && !(nameStopWords.contains (lowerStr cw)) then
          cw :: collectBeforeAccount acct ws
        else collectBeforeAccount acct ws

/-- The `elif account_number:` extraction path: the last two cleaned
alphabetic words before the account number. -/
def beforeAccountName (message acct : String) : Option String :=
  let nameWords := collectBeforeAccount acct (splitWs message)
  if 2 ≤ nameWords.length then some (joinSpace (nameWords.drop (nameWords.length - 2)))
  else none

/-- Name and account extraction of `_handle_identity_verification`. The
local `words` is assigned only in the fallback account scan, so when the
account number came from the extracted entities and the message lacks
`"name is"`, the `elif` branch reads an unbound local and raises
`NameError` (caught by `process_message` as a generic failure). -/
def extractCredentials (message : String) (entities : Entities) :
    Except String (Option String × Option String) :=
  let entAcct := entities.account_number
  let account_number := match entAcct with
    | some a => some a
    | none => extractAccountFallback message
  if containsSub (lowerStr message) "name is" then
    .ok (nameIsExtract message, account_number)
  else
    match account_number with
    | some acct =>
        if entAcct.isSome then .error "NameError: words"
        else .ok (beforeAccountName message acct, account_number)
    | none => .ok (none, account_number)

/-! ### Identity-verification dialogue (`_handle_identity_verification`) -/

def verifyToolName : String := "verify_customer_identity"

def identityPromptMsg : String :=
  "To verify your identity, I need your full name and account number. Please provide both in your message."

def whatCanIHelp : String := " What can I help you with today?"

def handleIdentityVerification (ctx : Ctx) (b : Bank) (st : SessionState)
    (message : String) (entities : Entities) :
    Except String (AgentResponse × Bank × SessionState) :=
  match extractCredentials message entities with
  | .error e => .error e
  | .ok (some full_name, some account_number) =>
      let result := (verifyCustomerIdentity ctx.now b full_name account_number none).1
      let b' := (verifyCustomerIdentity ctx.now b full_name account_number none).2
      if result.verified then
        let st' := { st with is_verified := true, customer_id := result.customer_id }
        .ok ({ response := result.message ++ whatCanIHelp, verified := true,
               customer_id := result.customer_id, tools_used := [verifyToolName] },
             b', st')
      else if result.requires_security_question then
        let st' := { st with
          awaiting_security_answer := true
          temp_customer_id := result.customer_id
          temp_name := some full_name
          temp_account := some account_number }
        .ok ({ response := result.message, requires_security_question := true,
               customer_id := result.customer_id, tools_used := [verifyToolName] },
             b', st')
      else
        .ok ({ response := result.message, verification_failed := true,
               tools_used := [verifyToolName] }, b', st)
  | .ok _ =>
      if st.awaiting_security_answer && optTruthy st.temp_customer_id then
        let result := (verifyCustomerIdentity ctx.now b (st.temp_name.getD "")
          (st.temp_account.getD "") (some message)).1
        let b' := (verifyCustomerIdentity ctx.now b (st.temp_name.getD "")
          (st.temp_account.getD "") (some message)).2
        if result.verified then
          let st' := { st with
            awaiting_security_answer := false
            temp_customer_id := none
            temp_name := none
            temp_account := none
            is_verified := true
            customer_id := result.customer_id }
          .ok ({ response := result.message ++ whatCanIHelp, verified := true,
                 customer_id := result.customer_id, tools_used := [verifyToolName] },
               b', st')
        else
          let st' := if containsSub (lowerStr result.message) "too many" then
              { st with
                awaiting_security_answer := false
                temp_customer_id := none
                temp_name := none
                temp_account := none }
            else st
          .ok ({ response := result.message, verification_failed := true,
                 tools_used := [verifyToolName] }, b', st')
      else
        .ok ({ response := identityPromptMsg, requires_verification := true }, b, st)

/-! ### Support tools (`nano/tools/support.py`)

The banking knowledge base is static data; `escalate_to_human` builds a
ticket id from the date and the session id. Neither can fail in the model
(their `try` bodies are pure). -/

structure KBEntry where
  category : String
  topic : String
  info : String
  steps : List String := []
  requirements : List String := []
  deriving Repr, DecidableEq

def knowledgeBaseEntries : List KBEntry :=
  [{ category := "account_services", topic := "Account Balance Inquiry",
     info := "Check your current account balance and recent transactions.",
     steps := ["Verify identity", "Access account information", "Display balance"],
     requirements := ["Valid ID", "Security verification"] },
   { category := "account_services", topic := "Account Statements",
     info := "View and download monthly account statements.",
     steps := ["Log in to account", "Navigate to statements", "Select date range",
               "Download PDF"],
     requirements := ["Account access", "Identity verification"] },
   { category := "account_services", topic := "Update Contact Information",
     info := "Change your address, phone number, or email address.",
     steps := ["Verify identity", "Provide new information", "Confirm changes"],
     requirements := ["Identity verification", "Valid contact details"] },
   { category := "transactions", topic := "Transfer Funds",
     info := "Transfer money between your accounts or to external accounts.",
     steps := ["Verify identity", "Select accounts", "Enter amount", "Confirm transfer"],
     requirements := ["Sufficient funds", "Valid recipient account"] },
   { category := "transactions", topic := "Transaction History",
     info := "View your recent transaction history and details.",
     steps := ["Access account", "Select date range", "View transactions"],
     requirements := ["Account access"] },
   { category := "transactions", topic := "Stop Payment",
     info := "Stop payment on a check or recurring transaction.",
     steps := ["Provide check/transaction details", "Pay stop payment fee",
               "Confirm request"],
     requirements := ["Valid reason", "Transaction details", "Fee payment"] },
   { category := "security", topic := "Password Reset",
     info := "Reset your online banking password securely.",
     steps := ["Verify identity", "Set new password", "Confirm changes"],
     requirements := ["Identity verification", "Strong password"] },
   { category := "security", topic := "Account Security",
     info := "Information about keeping your account secure.",
     steps := ["Use strong passwords", "Monitor statements",
               "Report suspicious activity"],
     requirements := ["Regular monitoring", "Secure practices"] },
   { category := "security", topic := "Fraud Reporting",
     info := "Report suspected fraudulent activity on your account.",
     steps := ["Contact bank immediately", "Provide transaction details",
               "Complete fraud affidavit"],
     requirements := ["Immediate action", "Documentation"] },
   { category := "general", topic := "Branch Locations",
     info := "Find Bank Of AI branches and ATM locations near you.",
     steps := ["Use branch locator", "Check hours", "Plan visit"],
     requirements := ["Location information"] },
   { category := "general", topic := "Contact Information",
     info := "Get contact information for different banking services.",
     steps := ["Select service type", "Choose contact method"],
     requirements := ["Service identification"] },
   { category := "general", topic := "Banking Hours",
     info := "Bank operating hours and holiday schedule.",
     steps := ["Check regular hours", "Verify holiday schedule"],
     requirements := ["None"] }]

/-- `any(keyword in query_lower for keyword in topic.lower().split())`. -/
def kbMatches (query : String) (e : KBEntry) : Bool :=
  (splitWs (lowerStr e.topic)).any (fun w => containsSub (lowerStr query) w)

def kbFallbackEntry : KBEntry :=
  { category := "account_services", topic := "Account Balance Inquiry",
    info := "I can help you check your account balance after verifying your identity.",
    steps := ["Provide full name and account number", "Answer security question",
              "View current balance"],
    requirements := ["Valid identification", "Security verification"] }

/-- `GeneralSupportTools.banking_knowledge_base`: the matching entries, or
the balance fallback when nothing matched and the query mentions balance
or account. -/
def bankingKnowledgeBase (query : String) : List KBEntry :=
  let found := knowledgeBaseEntries.filter (kbMatches query)
  if found.isEmpty then
    if containsSub (lowerStr query) "balance" || containsSub (lowerStr query) "account"
    then [kbFallbackEntry] else []
  else found

/-- `GeneralSupportTools.escalate_to_human` with the default priority
`"normal"`: the ticket id and the user-facing message. -/
def escalateToHuman (ctx : Ctx) : String × String :=
  let eid := "ESC-" ++ ctx.today ++ "-" ++ lastChars 6 ctx.sessionId
  (eid, "I've created escalation ticket " ++ eid ++
    " to connect you with a human representative. Expected wait time: 15-20 minutes.")

/-! ### Verified requests (`NANOAgent._handle_verified_request`) -/

/-- ASCII upper-casing of one character. -/
def ucChar (c : Char) : Char :=
  if 'a' ≤ c ∧ c ≤ 'z' then Char.ofNat (c.toNat - 32) else c

/-- Python's `s.title()` on a single word (`"credit"` / `"debit"`). -/
def titleWord (w : String) : String :=
  match w.toList with
  | [] => ""
  | c :: cs => String.mk (ucChar c :: cs.map lcChar)

/-- `"\n".join(ws)`. -/
def joinNl : List String → String
  | [] => ""
  | [w] => w
  | w :: ws => w ++ "\n" ++ joinNl ws

/-- One bullet line of the transaction listing; the `strftime` date is the
abstract timestamp rendered as a number. -/
def renderTxnLine (t : Transaction) : String :=
  "• " ++ toString t.created_at ++ ": " ++ titleWord t.transaction_type ++ " " ++
    formatMoney t.amount ++ " - " ++ t.description ++ "\n"

def renderTransactions (r : HistoryResult) : String :=
  "Here are your recent transactions:\n\n" ++
    String.join ((r.transactions.take 3).map renderTxnLine) ++
    "\nTotal transactions in last 30 days: " ++ toString r.total_transactions

def askWhatToUpdateMsg : String :=
  "I can help update your contact information. What would you like to change - your email, phone number, or address? Please provide the new information."

def fileManagementMsg : String :=
  "I can help with document management. Would you like to upload a document, view your existing documents, or organize your files?"

def documentOcrMsg : String :=
  "I can help you process documents using OCR technology to extract text and banking information. Please upload your document (PDF, image, or scan) and I'll analyze it for you. What type of document would you like me to process?"

def verifiedFallbackMsg : String :=
  "I'm here to help with your banking needs. You can ask about your balance, transaction history, update your information, or get general banking assistance."

def handleVerifiedRequest (ctx : Ctx) (b : Bank) (st : SessionState) (message : String)
    (intent : String) (customer_id : String) (entities : Entities) :
    AgentResponse × Bank × SessionState :=
  if intent == "balance_inquiry" then
    let r := queryAccountBalance b customer_id
    let response := if r.success then
        "Your current account balance is " ++ formatMoney r.current_balance ++
          ". Is there anything else I can help you with?"
      else "I'm sorry, I couldn't retrieve your balance at this time. " ++ r.message
    ({ response := response, customer_id := some customer_id,
       tools_used := ["query_account_balance"] }, b, st)
  else if intent == "transaction_history" then
    let r := transactionHistory ctx.now b customer_id 5
    let response := if r.success && 0 < r.total_transactions then renderTransactions r
      else "I don't see any recent transactions on your account."
    ({ response := response, customer_id := some customer_id,
       tools_used := ["transaction_history"] }, b, st)
  else if intent == "update_information" then
    if entities.update_field.isSome && (entities.new_email.isSome || entities.new_phone.isSome)
    then
      let update_field := entities.update_field.getD ""
      let updates : List (String × String) :=
        if update_field == "email" then
          match entities.new_email with | some v => [("email", v)] | none => []
        else if update_field == "phone" then
          match entities.new_phone with | some v => [("phone", v)] | none => []
        else []
      if !updates.isEmpty then
        let (r, b2) := updateCustomerRecord ctx.now b customer_id updates
        let response := if r.success then
            "I've successfully updated your " ++ update_field ++ " to " ++
              ((updates.head?.map (fun p => p.2)).getD "") ++
              ". Is there anything else I can help you with?"
          else "I encountered an issue updating your " ++ update_field ++ ". " ++ r.message
        ({ response := response, customer_id := some customer_id,
           tools_used := ["update_customer_record"] }, b2, st)
      else
        ({ response := askWhatToUpdateMsg, customer_id := some customer_id }, b, st)
    else
      ({ response := askWhatToUpdateMsg, customer_id := some customer_id }, b, st)
  else if intent == "file_management" then
    ({ response := fileManagementMsg, customer_id := some customer_id }, b, st)
  else if intent == "document_ocr" then
    ({ response := documentOcrMsg, customer_id := some customer_id }, b, st)
  else
    let results := bankingKnowledgeBase message
    let response := match results.head? with
      | some e => "Here's information about " ++ e.topic ++ ":\n\n" ++ e.info
      | none => verifiedFallbackMsg
    ({ response := response, customer_id := some customer_id,
       tools_used := ["banking_knowledge_base"] }, b, st)

/-! ### The dialogue controller (`NANOAgent._generate_response`) -/

def greetingMsg : String :=
  "Hello! I'm NANO, your Bank Of AI customer service assistant. How can I help you today?"

def credentialRequestMsg : String :=
  "I'd be happy to help with that! First, I need to verify your identity for security purposes. Please provide your full name and account number."

def defaultMsg : String :=
  "I understand you need assistance. Could you please provide more specific information about how I can help you today?"

def generalSupportFallbackMsg : String :=
  "I'd be happy to help! Could you please provide more details about what you're looking for?"

def sensitiveIntents : List String :=
  ["balance_inquiry", "transaction_history", "update_information", "file_management",
   "document_ocr"]

/-- The context-override test (lines 292–302 of `agent.py`): the last entry
of the conversation history is an assistant turn that asked for name and
account number, and the current message carries an account number or the
word "name". -/
def contextOverrideFires (hist : List Turn) (message : String) (entities : Entities) :
    Bool :=
  match hist.getLast? with
  | none => false
  | some t =>
      t.role == "assistant" &&
      containsSub t.message "provide your full name and account number" &&
      (optTruthy entities.account_number || containsSub (lowerStr message) "name")

def generateResponse (ctx : Ctx) (b : Bank) (st : SessionState) (message : String)
    (intent0 : String) (entities : Entities) :
    Except String (AgentResponse × Bank × SessionState) :=
  let intent := if contextOverrideFires st.transcript message entities
    then "identity_verification" else intent0
  if intent == "greeting" then
    .ok ({ response := greetingMsg, requires_verification := false }, b, st)
  else if intent == "escalation" then
    .ok ({ response := (escalateToHuman ctx).2, escalation_id := some (escalateToHuman ctx).1,
           tools_used := ["escalate_to_human"] }, b, st)
  else if sensitiveIntents.contains intent && !st.is_verified then
    .ok ({ response := credentialRequestMsg, requires_verification := true,
           next_intent := some intent }, b, st)
  else if intent == "identity_verification" ||
      (!st.is_verified && optTruthy entities.account_number) then
    handleIdentityVerification ctx b st message entities
  else if st.is_verified && optTruthy st.customer_id then
    .ok (handleVerifiedRequest ctx b st message intent (st.customer_id.getD "") entities)
  else if intent == "general_support" then
    let results := bankingKnowledgeBase message
    let response := match results.head? with
      | some e =>
          let base := "Here's information about " ++ e.topic ++ ":\n\n" ++ e.info
          if e.steps.isEmpty then base
          else base ++ "\n\nSteps:\n" ++ joinNl (e.steps.map (fun s => "• " ++ s))
      | none => generalSupportFallbackMsg
    .ok ({ response := response, tools_used := ["banking_knowledge_base"] }, b, st)
  else
    .ok ({ response := defaultMsg }, b, st)

/-! ### The message loop (`NANOAgent.process_message`)

The session is taken to be live and unexpired (timeout and restore-from-db
are outside every claim); the user turn is persisted before the
conversation history is read, so the history the controller sees ends with
the current user message. A `NameError` from the handler is caught as in
the Python `except` block: the generic failure reply, no assistant turn
persisted, session keys unchanged. -/

def techDifficultiesMsg : String :=
  "I apologize, but I'm experiencing technical difficulties. Please try again or contact customer service."

def processMessage (ctx : Ctx) (b : Bank) (st : SessionState) (message : String) :
    AgentResponse × Bank × SessionState :=
  let st1 := { st with transcript := st.transcript ++ [⟨"user", message⟩] }
  let ia := analyzeIntent message
  match generateResponse ctx b st1 message ia.primary_intent ia.entities with
  | .ok (resp, b2, st2) =>
      (resp, b2, { st2 with transcript := st2.transcript ++ [⟨"assistant", resp.response⟩] })
  | .error _ => ({ response := techDifficultiesMsg, error := true }, b, st1)

/-- Run a list of messages through one session, collecting the responses. -/
def runMessages (ctx : Ctx) (b : Bank) (st : SessionState) :
    List String → List AgentResponse × Bank × SessionState
  | [] => ([], b, st)
  | m :: ms =>
      let (r, b2, st2) := processMessage ctx b st m
      let (rs, b3, st3) := runMessages ctx b2 st2 ms
      (r :: rs, b3, st3)

/-! ### Observation predicates and concrete fixtures

`hasSixRun cnt l`: some run of consecutive digits in `l` (continuing a
current streak of `cnt`) reaches length 6 — the side condition of the
amended extractor claim. `frozenView` projects the customer fields
`update_customer_record` must not touch. The fixtures mirror the test
data of `tests/test_agent.py`. -/

def hasSixRun (cnt : Nat) : List Char → Bool
  | [] => decide (6 ≤ cnt)
  | c :: cs =>
      if c.isDigit then hasSixRun (cnt + 1) cs
      else (decide (6 ≤ cnt) || hasSixRun 0 cs)

def frozenView (c : Customer) :
    String × String × String × String × String × Nat × String × Bool × Nat × Option Nat :=
  (c.customer_id, c.full_name, c.account_number, c.security_question,
   c.security_answer, c.account_balance, c.account_status, c.is_verified,
   c.login_attempts, c.last_login)

/-- Every keyword of every category of `_analyze_intent`. -/
def allKeywords : List String :=
  identityKeywords ++ balanceKeywords ++ transactionKeywords ++ updateKeywords ++
    contactKeywords ++ fileKeywords ++ ocrKeywords ++ helpKeywords ++
    escalationKeywords ++ greetingKeywords

def johnDoe : Customer :=
  { customer_id := "test123", full_name := "John Doe", account_number := "1234567890",
    email := "john@test.com", security_question := "What is your pet's name?",
    security_answer := "fluffy", account_balance := 100000 }

def johnBank : Bank := { customers := [johnDoe] }

def johnLockedBank : Bank := { customers := [{ johnDoe with login_attempts := 3 }] }

def credentialsMsg : String := "My name is John Doe and my account number is 1234567890"

/-- The four-message scenario of the specification (§8). -/
def scenarioMessages : List String :=
  ["What's my balance?", credentialsMsg, "fluffy", "What's my balance?"]

/-- A wrong security answer that still routes into the verification
handler (it scores on the identity keyword `verify` and extracts neither a
name nor an account number). -/
def wrongAnswerMessage : String := "verify aaa"

/-- Reach `AWAITING_SECURITY_ANSWER` and then give three consecutive
incorrect security answers. -/
def threeFailuresMessages : List String :=
  [credentialsMsg, wrongAnswerMessage, wrongAnswerMessage, wrongAnswerMessage]

/-- A session whose previous assistant turn asked for name and account
number (the context-override trigger of the claim). -/
def promptedSession : SessionState :=
  { transcript := [⟨"user", "What's my balance?"⟩, ⟨"assistant", credentialRequestMsg⟩] }

/-- A session that has reached the awaiting-security-answer state for
John Doe (as message 2 of the scenario leaves it, transcript aside). -/
def awaitingSession : SessionState :=
  { awaiting_security_answer := true, temp_customer_id := some "test123",
    temp_name := some "John Doe", temp_account := some "1234567890" }

/-! ## General lemmas about the embedded operations -/

/-- The empty fragment is a substring of every string (Python `"" in s`). -/
theorem containsSub_empty_needle (s : String) : containsSub s "" = true := by
  unfold containsSub
  induction s.toList with
  | nil => rfl
  | cons c cs ih => simp [containsSubAux]

/-- A segment consumes its own literal occurrence (a literal character
matches itself, and `_` matches the character standing at its position). -/
theorem segConsume_self (seg : List Char) :
    ∀ rest, segConsume seg (seg ++ rest) = some rest := by
  induction seg with
  | nil => intro rest; rfl
  | cons p ps ih =>
      intro rest
      simp [segConsume, ih rest]

/-- What a segment leaves behind is a suffix of the text. -/
theorem segConsume_suffix (seg : List Char) :
    ∀ t r, segConsume seg t = some r → r <:+ t := by
  induction seg with
  | nil =>
      intro t r h
      simp only [segConsume, Option.some.injEq] at h
      subst h
      exact List.suffix_refl t
  | cons p ps ih =>
      intro t r h
      cases t with
      | nil => simp [segConsume] at h
      | cons c ts =>
          simp only [segConsume] at h
          by_cases hc : (p == '_' || p == c) = true
          · rw [if_pos hc] at h
            exact (ih ts r h).trans (List.suffix_cons c ts)
          · rw [if_neg hc] at h
            exact absurd h (by simp)

/-- A segment consumes exactly its own length. -/
theorem segConsume_length (seg : List Char) :
    ∀ t r, segConsume seg t = some r → t.length = seg.length + r.length := by
  induction seg with
  | nil =>
      intro t r h
      simp only [segConsume, Option.some.injEq] at h
      subst h
      simp
  | cons p ps ih =>
      intro t r h
      cases t with
      | nil => simp [segConsume] at h
      | cons c ts =>
          simp only [segConsume] at h
          by_cases hc : (p == '_' || p == c) = true
          · rw [if_pos hc] at h
            have hl := ih ts r h
            simp only [List.length_cons]
            omega
          · rw [if_neg hc] at h
            exact absurd h (by simp)

/-- If the segment occurs (here: literally, with `rest` behind it), the
greedy earliest-position search succeeds, and whatever follows the
occurrence is still a suffix of what the search leaves behind (the
earliest match ends no later than the given one). -/
theorem findSeg_of_placed (seg : List Char) :
    ∀ (a rest : List Char),
    ∃ r, findSeg seg (a ++ (seg ++ rest)) = some r ∧ rest <:+ r := by
  intro a
  induction a with
  | nil =>
      intro rest
      refine ⟨rest, ?_, List.suffix_refl rest⟩
      rw [List.nil_append]
      cases hsr : seg ++ rest with
      | nil =>
          obtain ⟨h1, h2⟩ := List.append_eq_nil.mp hsr
          subst h1
          subst h2
          rfl
      | cons c ts =>
          have hcons : segConsume seg (c :: ts) = some rest := by
            rw [← hsr]
            exact segConsume_self seg rest
          simp only [findSeg, hcons]
  | cons x a' ih =>
      intro rest
      cases hc : segConsume seg (x :: (a' ++ (seg ++ rest))) with
      | some r0 =>
          refine ⟨r0, ?_, ?_⟩
          · rw [List.cons_append]
            simp only [findSeg, hc]
          · have hsuf : r0 <:+ x :: (a' ++ (seg ++ rest)) :=
              segConsume_suffix seg _ r0 hc
            have hrest : rest <:+ x :: (a' ++ (seg ++ rest)) :=
              ((List.suffix_append seg rest).trans
                (List.suffix_append a' (seg ++ rest))).trans
                (List.suffix_cons x (a' ++ (seg ++ rest)))
            refine List.suffix_of_suffix_length_le hrest hsuf ?_
            have hlen := segConsume_length seg _ r0 hc
            simp only [List.length_cons, List.length_append] at hlen
            omega
      | none =>
          obtain ⟨r, hfind, hsuf⟩ := ih rest
          refine ⟨r, ?_, hsuf⟩
          rw [List.cons_append]
          simp only [findSeg, hc]
          exact hfind

/-- A literal occurrence of the fragment makes all its `%`-segments occur
in order: `LIKE '%' + frag + '%'` accepts every text containing `frag`.
The accumulator form follows `splitPercentAux`. -/
theorem segsInOrder_of_occurrence :
    ∀ (frag cur a b : List Char),
    segsInOrder (splitPercentAux cur frag) (a ++ (cur.reverse ++ (frag ++ b))) =
      true := by
  intro frag
  induction frag with
  | nil =>
      intro cur a b
      obtain ⟨r, hfind, _⟩ := findSeg_of_placed cur.reverse a b
      simp only [splitPercentAux, List.nil_append, segsInOrder, hfind]
  | cons c cs ih =>
      intro cur a b
      by_cases hc : (c == '%') = true
      · have hceq : c = '%' := by simpa using hc
        subst hceq
        obtain ⟨r, hfind, hsuf⟩ := findSeg_of_placed cur.reverse a ('%' :: (cs ++ b))
        obtain ⟨a2, ha2⟩ := hsuf
        have hsplit : splitPercentAux cur ('%' :: cs) =
            cur.reverse :: splitPercentAux [] cs := by
          simp [splitPercentAux]
        have hgoal :
            segsInOrder (splitPercentAux [] cs) (a2 ++ ('%' :: (cs ++ b))) = true := by
          have hIH := ih [] (a2 ++ ['%']) b
          simpa [List.append_assoc] using hIH
        rw [ha2] at hgoal
        rw [hsplit]
        simp only [List.cons_append]
        simp only [segsInOrder, hfind]
        exact hgoal
      · have hcne : (c == '%') = false := by simpa using hc
        have hsplit : splitPercentAux cur (c :: cs) = splitPercentAux (c :: cur) cs := by
          simp [splitPercentAux, hcne]
        rw [hsplit]
        have hIH := ih (c :: cur) a b
        simpa [List.append_assoc] using hIH

/-- A successful substring scan exhibits the decomposition. -/
theorem containsSubAux_infix (needle : List Char) :
    ∀ hay, containsSubAux needle hay = true → ∃ a b, hay = a ++ (needle ++ b) := by
  intro hay
  induction hay with
  | nil =>
      intro h
      simp only [containsSubAux, List.isEmpty_iff] at h
      exact ⟨[], [], by simp [h]⟩
  | cons c cs ih =>
      intro h
      simp only [containsSubAux, Bool.or_eq_true] at h
      cases h with
      | inl hp =>
          obtain ⟨t, ht⟩ := List.isPrefixOf_iff_prefix.mp hp
          exact ⟨[], t, by simp [← ht]⟩
      | inr hr =>
          obtain ⟨a, b, hab⟩ := ih hr
          exact ⟨c :: a, b, by simp [hab]⟩

/-- Case-insensitive containment implies the `ilike` name factor: the
`LIKE` pattern `%frag%` accepts every stored name that contains the
fragment literally (wildcard characters in `frag` also match themselves). -/
theorem ilike_of_containsSub (stored frag : String)
    (h : containsSub (lowerStr stored) (lowerStr frag) = true) :
    ilikeContains stored frag = true := by
  obtain ⟨a, b, hab⟩ :=
    containsSubAux_infix (lowerStr frag).toList (lowerStr stored).toList h
  rw [ilikeContains, hab]
  have := segsInOrder_of_occurrence (lowerStr frag).toList [] a b
  simpa using this

/-- The history the dialogue controller sees always ends with the user turn
`process_message` just persisted, so the context-override test is false on
every history the controller is actually given. -/
theorem contextOverride_after_user (hist : List Turn) (m m2 : String) (e : Entities) :
    contextOverrideFires (hist ++ [⟨"user", m⟩]) m2 e = false := by
  simp [contextOverrideFires, List.getLast?_concat]

/-- The name+account step (no security answer) can never verify. -/
theorem verify_none_never_verifies (now : Nat) (b : Bank) (n a : String) :
    (verifyCustomerIdentity now b n a none).1.verified = false := by
  unfold verifyCustomerIdentity
  cases h : lookupCustomer b n a with
  | none => rfl
  | some c =>
      by_cases h1 : c.account_status != "active" <;>
        by_cases h2 : 3 ≤ c.login_attempts <;> simp [h1, h2]

/-- A matching active customer with attempt budget left, no answer given:
the security question is emitted and the store is untouched. -/
theorem verify_asks_question (now : Nat) (b : Bank) (n a : String) (c : Customer)
    (hlook : lookupCustomer b n a = some c) (hact : c.account_status = "active")
    (hatt : c.login_attempts < 3) :
    verifyCustomerIdentity now b n a none =
      ({ verified := false, message := securityQuestionMsg c.security_question,
         requires_security_question := true, customer_id := some c.customer_id }, b) := by
  unfold verifyCustomerIdentity
  rw [hlook]
  simp [hact, Nat.not_le.mpr hatt]

/-- A wrong nonempty security answer: failure reply, question kept open, and
the failure counter incremented on the stored customer record. -/
theorem verify_wrong_answer (now : Nat) (b : Bank) (n a ans : String) (c : Customer)
    (hlook : lookupCustomer b n a = some c) (hact : c.account_status = "active")
    (hatt : c.login_attempts < 3) (hne : ans ≠ "")
    (hwrong : answerMatches c.security_answer ans = false) :
    verifyCustomerIdentity now b n a (some ans) =
      ({ verified := false, message := wrongAnswerMsg, requires_security_question := true,
         remaining_attempts := some ((3 : Int) - (c.login_attempts + 1)) },
       { b with customers := (updateFirst (customerFilter n a)
           (fun x => { x with login_attempts := x.login_attempts + 1 }) b.customers) }) := by
  unfold verifyCustomerIdentity
  rw [hlook]
  simp [hact, Nat.not_le.mpr hatt, hne, hwrong]

/-- A customer whose persistent failure counter has reached 3 is refused
with the branch-visit message, whatever the session and the answer. -/
theorem verify_locked (now : Nat) (b : Bank) (n a : String) (ans : Option String)
    (c : Customer) (hlook : lookupCustomer b n a = some c)
    (hact : c.account_status = "active") (hatt : 3 ≤ c.login_attempts) :
    verifyCustomerIdentity now b n a ans = ({ verified := false, message := lockedMsg }, b) := by
  unfold verifyCustomerIdentity
  rw [hlook]
  simp [hact, hatt]

/-- The identity handler cannot set the verified flag of a session that is
not already awaiting a security answer: the name+account step never
verifies, and the answer step is guarded by the awaiting flag. -/
theorem handler_no_direct_verify (ctx : Ctx) (b : Bank) (st : SessionState)
    (message : String) (entities : Entities)
    (hv : st.is_verified = false) (ha : st.awaiting_security_answer = false)
    (out : AgentResponse × Bank × SessionState)
    (h : handleIdentityVerification ctx b st message entities = .ok out) :
    out.2.2.is_verified = false := by
  cases hc : extractCredentials message entities with
  | error e => simp [handleIdentityVerification, hc] at h
  | ok p =>
      obtain ⟨n?, a?⟩ := p
      cases n? with
      | none =>
          simp only [handleIdentityVerification, hc, ha, Bool.false_and,
            Bool.false_eq_true, if_false] at h
          cases h
          exact hv
      | some n =>
          cases a? with
          | none =>
              simp only [handleIdentityVerification, hc, ha, Bool.false_and,
                Bool.false_eq_true, if_false] at h
              cases h
              exact hv
          | some a =>
              simp only [handleIdentityVerification, hc, verify_none_never_verifies,
                Bool.false_eq_true, if_false] at h
              split at h <;> (cases h; exact hv)

/-- The dialogue controller never turns an unverified, non-awaiting session
into a verified one in a single step. -/
theorem generate_no_direct_verify (ctx : Ctx) (b : Bank) (st : SessionState)
    (message intent : String) (entities : Entities)
    (hv : st.is_verified = false) (ha : st.awaiting_security_answer = false)
    (out : AgentResponse × Bank × SessionState)
    (h : generateResponse ctx b st message intent entities = .ok out) :
    out.2.2.is_verified = false := by
  simp only [generateResponse, hv, Bool.false_and, Bool.false_eq_true, if_false,
    Bool.not_false, Bool.true_and, Bool.and_true] at h
  generalize hI : (if contextOverrideFires st.transcript message entities = true then
    "identity_verification" else intent) = i at h
  split at h
  · rw [Except.ok.injEq] at h; subst h; exact hv
  · split at h
    · rw [Except.ok.injEq] at h; subst h; exact hv
    · split at h
      · rw [Except.ok.injEq] at h; subst h; exact hv
      · split at h
        · exact handler_no_direct_verify _ _ _ _ _ hv ha _ h
        · split at h
          · rw [Except.ok.injEq] at h; subst h; exact hv
          · rw [Except.ok.injEq] at h; subst h; exact hv

/-- `process_message` never takes a session from unverified (and not
awaiting a security answer) to verified in one message. -/
theorem step_no_direct_verify (ctx : Ctx) (b : Bank) (st : SessionState)
    (message : String)
    (hv : st.is_verified = false) (ha : st.awaiting_security_answer = false) :
    (processMessage ctx b st message).2.2.is_verified = false := by
  simp only [processMessage]
  split
  · next resp b2 st2 hg =>
      show st2.is_verified = false
      refine generate_no_direct_verify ctx b _ message
        (analyzeIntent message).primary_intent (analyzeIntent message).entities
        ?_ ?_ (resp, b2, st2) hg
      · exact hv
      · exact ha
  · next e hg => exact hv

/-! ## Lemmas about intent analysis and entity extraction -/

theorem analyzeIntent_entities (m : String) :
    (analyzeIntent m).entities = intentEntities m := rfl

/-- Only the account-number scanner determines the `account_number` entity;
the update-target extraction never touches it. -/
theorem intentEntities_account (message : String) :
    (intentEntities message).account_number = (findAccounts message).head? := by
  unfold intentEntities
  cases h : (findAccounts message).head? <;>
    simp only [h] <;> (repeat' split) <;> rfl

theorem nonword_nondigit {c : Char} (h : isWordChar c = false) : c.isDigit = false := by
  simp [isWordChar, Char.isAlphanum] at h
  simp [h]

/-- Scanning a block of digits accumulates it onto the current run. -/
theorem findRunsAux_digits (r : List Char) (hr : ∀ c ∈ r, c.isDigit = true) :
    ∀ (ok : Bool) (cur rest : List Char),
    findRunsAux ok cur (r ++ rest) = findRunsAux ok (r.reverse ++ cur) rest := by
  induction r with
  | nil => intro ok cur rest; simp
  | cons c cs ih =>
      intro ok cur rest
      have hc : c.isDigit = true := hr c (List.mem_cons_self c cs)
      rw [List.cons_append, findRunsAux, if_pos hc,
        ih (fun d hd => hr d (List.mem_cons_of_mem c hd)) ok (c :: cur) rest]
      simp

/-- A prefix on which the scanner emits nothing (in isolation) and which
ends just before a word boundary can be dropped: scanning the whole text
continues on the remainder with a reset scanner. Since the prefix ends in
a non-word (hence non-digit) character, no digit run can straddle the cut,
so "emits nothing in isolation" is exactly "the prefix holds no
boundary-delimited run of ≥ 6 digits". -/
theorem findRunsAux_noEmit (pre : List Char) :
    ∀ (ok : Bool) (cur rest : List Char),
    pre ≠ [] →
    pre.getLast?.all (fun c => !isWordChar c) = true →
    findRunsAux ok cur pre = [] →
    findRunsAux ok cur (pre ++ rest) = findRunsAux true [] rest := by
  induction pre with
  | nil => intro ok cur rest h _ _; exact absurd rfl h
  | cons c cs ih =>
      intro ok cur rest _ hlast hemp
      by_cases hc : c.isDigit = true
      · cases cs with
        | nil =>
            exfalso
            have hw : isWordChar c = true := by
              simp [isWordChar, Char.isAlphanum, hc]
            simp [hw] at hlast
        | cons d ds =>
            rw [List.cons_append, findRunsAux, if_pos hc]
            have hemp' : findRunsAux ok (c :: cur) (d :: ds) = [] := by
              rw [findRunsAux, if_pos hc] at hemp
              exact hemp
            exact ih ok (c :: cur) rest (by simp) (by simpa using hlast) hemp'
      · have hc' : c.isDigit = false := by simpa using hc
        rw [findRunsAux, if_neg (by simp [hc'])] at hemp
        by_cases hg : (ok && decide (6 ≤ cur.length) && !isWordChar c) = true
        · simp [hg] at hemp
        · have hgf : (ok && decide (6 ≤ cur.length) && !isWordChar c) = false := by
            simpa using hg
          simp only [hgf, Bool.false_eq_true, if_false] at hemp
          rw [List.cons_append, findRunsAux, if_neg (by simp [hc'])]
          simp only [hgf, Bool.false_eq_true, if_false]
          cases cs with
          | nil =>
              have hwc : isWordChar c = false := by simpa using hlast
              simp [hwc]
          | cons d ds =>
              exact ih (!isWordChar c) [] rest (by simp) (by simpa using hlast) hemp

/-! ## Lemmas about the stable descending sort -/

theorem mem_insertDesc {x p : String × Nat} {l : List (String × Nat)} :
    x ∈ insertDesc p l ↔ x = p ∨ x ∈ l := by
  induction l with
  | nil => simp [insertDesc]
  | cons q qs ih =>
      rw [insertDesc]
      by_cases h : p.2 < q.2
      · simp [h, ih, or_left_comm]
      · simp [h]

theorem sorted_insertDesc (p : String × Nat) (l : List (String × Nat))
    (h : l.Pairwise (fun a b => b.2 ≤ a.2)) :
    (insertDesc p l).Pairwise (fun a b => b.2 ≤ a.2) := by
  induction l with
  | nil => simp [insertDesc]
  | cons q qs ih =>
      rw [List.pairwise_cons] at h
      obtain ⟨hq, hqs⟩ := h
      rw [insertDesc]
      by_cases hc : p.2 < q.2
      · rw [if_pos hc, List.pairwise_cons]
        refine ⟨?_, ih hqs⟩
        intro x hx
        rcases mem_insertDesc.mp hx with rfl | hx'
        · exact Nat.le_of_lt hc
        · exact hq x hx'
      · rw [if_neg hc, List.pairwise_cons]
        refine ⟨?_, List.pairwise_cons.mpr ⟨hq, hqs⟩⟩
        intro x hx
        rcases List.mem_cons.mp hx with rfl | hx'
        · exact Nat.le_of_not_lt hc
        · exact Nat.le_trans (hq x hx') (Nat.le_of_not_lt hc)

theorem sorted_sortIntentsDesc (l : List (String × Nat)) :
    (sortIntentsDesc l).Pairwise (fun a b => b.2 ≤ a.2) := by
  induction l with
  | nil => simp [sortIntentsDesc]
  | cons p ps ih => exact sorted_insertDesc p _ ih

theorem perm_insertDesc (p : String × Nat) (l : List (String × Nat)) :
    (insertDesc p l).Perm (p :: l) := by
  induction l with
  | nil => exact List.Perm.refl _
  | cons q qs ih =>
      rw [insertDesc]
      by_cases h : p.2 < q.2
      · rw [if_pos h]
        exact (ih.cons q).trans (List.Perm.swap p q qs)
      · rw [if_neg h]

theorem perm_sortIntentsDesc (l : List (String × Nat)) :
    (sortIntentsDesc l).Perm l := by
  induction l with
  | nil => exact List.Perm.refl _
  | cons p ps ih => exact (perm_insertDesc p _).trans (ih.cons p)

/-- Stability: inserting below the strictly-greater scores does not disturb
the elements of any fixed score class, and a new element of that class
lands in front of it. -/
theorem filter_insertDesc (s : Nat) (p : String × Nat) (l : List (String × Nat)) :
    (insertDesc p l).filter (fun q => q.2 == s) =
      if p.2 == s then p :: l.filter (fun q => q.2 == s)
      else l.filter (fun q => q.2 == s) := by
  induction l with
  | nil => by_cases h : p.2 == s <;> simp [insertDesc, List.filter, h]
  | cons q qs ih =>
      rw [insertDesc]
      by_cases hc : p.2 < q.2
      · rw [if_pos hc]
        by_cases hps : (p.2 == s) = true
        · have hqs : (q.2 == s) = false := by
            have hp : p.2 = s := by simpa using hps
            have : q.2 ≠ s := by omega
            simpa using this
          simp [List.filter_cons, hqs, ih, hps]
        · have hps' : (p.2 == s) = false := by simpa using hps
          simp [List.filter_cons, ih, hps']
      · rw [if_neg hc]
        by_cases hps : (p.2 == s) = true <;>
          simp_all [List.filter_cons]

theorem filter_sortIntentsDesc (s : Nat) (l : List (String × Nat)) :
    (sortIntentsDesc l).filter (fun q => q.2 == s) = l.filter (fun q => q.2 == s) := by
  induction l with
  | nil => rfl
  | cons p ps ih =>
      rw [sortIntentsDesc, filter_insertDesc]
      by_cases h : (p.2 == s) = true <;> simp_all [List.filter_cons]

/-! ## Lemmas for the keyword-free fallback -/

theorem kwScore_eq_zero {kws : List String} {ml : String}
    (h : ∀ kw ∈ kws, containsSub ml kw = false) : kwScore kws ml = 0 := by
  unfold kwScore
  have hnil : kws.filter (fun k => containsSub ml k) = [] := by
    rw [List.filter_eq_nil_iff]
    intro a ha
    simp [h a ha]
  rw [hnil]
  rfl

/-- With no keyword of any category in the message and no account-number
match, `_analyze_intent` produces no candidate at all. -/
theorem intentCandidates_nil (message : String)
    (hkw : ∀ kw ∈ allKeywords, containsSub (lowerStr message) kw = false)
    (hacc : findAccounts message = []) : intentCandidates message = [] := by
  have sub : ∀ kws : List String, (∀ kw ∈ kws, kw ∈ allKeywords) →
      kwScore kws (lowerStr message) = 0 := fun kws hs =>
    kwScore_eq_zero (fun kw hk => hkw kw (hs kw hk))
  have h1 := sub identityKeywords
    (by intro kw hk; simp [allKeywords, List.mem_append]; tauto)
  have h2 := sub balanceKeywords
    (by intro kw hk; simp [allKeywords, List.mem_append]; tauto)
  have h3 := sub transactionKeywords
    (by intro kw hk; simp [allKeywords, List.mem_append]; tauto)
  have h4 := sub updateKeywords
    (by intro kw hk; simp [allKeywords, List.mem_append]; tauto)
  have h5 := sub contactKeywords
    (by intro kw hk; simp [allKeywords, List.mem_append]; tauto)
  have h6 := sub fileKeywords
    (by intro kw hk; simp [allKeywords, List.mem_append]; tauto)
  have h7 := sub ocrKeywords
    (by intro kw hk; simp [allKeywords, List.mem_append]; tauto)
  have h8 := sub helpKeywords
    (by intro kw hk; simp [allKeywords, List.mem_append]; tauto)
  have h9 := sub escalationKeywords
    (by intro kw hk; simp [allKeywords, List.mem_append]; tauto)
  have h10 : greetingKeywords.any (fun kw => containsSub (lowerStr message) kw) = false := by
    rw [List.any_eq_false]
    intro kw hk
    simp [hkw kw (by simp [allKeywords, List.mem_append]; tauto)]
  unfold intentCandidates
  simp [h1, h2, h3, h4, h5, h6, h7, h8, h9, h10, hacc]

/-! ## Lemmas about the customer-record update -/

theorem setField_frozen (c : Customer) (f v : String) :
    frozenView (setField c f v) = frozenView c := by
  unfold setField
  by_cases h1 : (f == "email") = true
  · rw [if_pos h1]; rfl
  · rw [if_neg h1]
    by_cases h2 : (f == "phone") = true
    · rw [if_pos h2]; rfl
    · rw [if_neg h2]
      by_cases h3 : (f == "address") = true
      · rw [if_pos h3]; rfl
      · rw [if_neg h3]

theorem applyUpdates_frozen (updates : List (String × String)) :
    ∀ c : Customer, frozenView (applyUpdates c updates).1 = frozenView c := by
  induction updates with
  | nil => intro c; rfl
  | cons p rest ih =>
      intro c
      obtain ⟨f, v⟩ := p
      rw [applyUpdates]
      split
      · simp only []
        rw [ih (setField c f v), setField_frozen]
      · exact ih c

theorem applyUpdates_none (updates : List (String × String))
    (h : ∀ p ∈ updates, updatableFields.contains p.1 = false) :
    ∀ c : Customer, applyUpdates c updates = (c, []) := by
  induction updates with
  | nil => intro c; rfl
  | cons p rest ih =>
      intro c
      obtain ⟨f, v⟩ := p
      have hf : updatableFields.contains f = false := h (f, v) (List.mem_cons_self _ _)
      rw [applyUpdates, hf]
      simp only [Bool.false_eq_true, if_false]
      exact ih (fun q hq => h q (List.mem_cons_of_mem _ hq)) c

theorem map_frozen_updateFirst (p : Customer → Bool) (v : Customer)
    (l : List Customer) (c : Customer) (hfind : l.find? p = some c)
    (hv : frozenView v = frozenView c) :
    (updateFirst p (fun _ => v) l).map frozenView = l.map frozenView := by
  induction l with
  | nil => simp at hfind
  | cons x xs ih =>
      by_cases hp : p x = true
      · rw [List.find?_cons_of_pos _ hp] at hfind
        cases hfind
        rw [updateFirst, if_pos hp]
        simp [hv]
      · rw [List.find?_cons_of_neg _ (by simp [hp])] at hfind
        rw [updateFirst, if_neg (by simp [hp])]
        simp [ih hfind]

/-! ## The claims

One theorem per claim (C1–C10), with its witness or counterexample where
the claim calls for one. -/

/-- C1: the four-message scenario (customer "John Doe", account
"1234567890", security answer "fluffy"; messages "What's my balance?",
the credentials, "fluffy", "What's my balance?" in one session). The claim
says the fourth response carries the balance with `query_account_balance`
among `tools_used`. The code does not: "fluffy" contains no identity
keyword and no digit run, so the controller never routes it to the
verification handler (third response is the generic default), the session
stays unverified although "fluffy" is the correct answer, and the fourth
response is the verification request again, with no tools used. -/
theorem C1_scenario_run :
    (((runMessages {} johnBank (initSession none) scenarioMessages).1.map
        (fun r => (r.response, r.tools_used, r.requires_verification))).getLast? =
      some (credentialRequestMsg, [], true)) ∧
    (((runMessages {} johnBank (initSession none) scenarioMessages).1.map
        (fun r => r.response))[2]? = some defaultMsg) ∧
    ((runMessages {} johnBank (initSession none) scenarioMessages).2.2.is_verified
      = false) ∧
    (answerMatches johnDoe.security_answer "fluffy" = true) := by
  refine ⟨by decide, by decide, by decide, by decide⟩

/-- C2 counterexample: a message presenting John Doe's matching name and
account number while his persistent failure counter stands at 3 does not
get the security question and does not move the session to
awaiting-security-answer; it is refused with the branch-visit message. -/
theorem C2_counterexample :
    (johnLockedBank.customers.map (fun c => c.login_attempts) = [3]) ∧
    ((lookupCustomer johnLockedBank "John Doe" "1234567890").isSome = true) ∧
    ((processMessage {} johnLockedBank (initSession none)
        credentialsMsg).1.requires_security_question = false) ∧
    ((processMessage {} johnLockedBank (initSession none) credentialsMsg).1.response
      = lockedMsg) ∧
    ((processMessage {} johnLockedBank (initSession none)
        credentialsMsg).2.2.awaiting_security_answer = false) := by
  refine ⟨by decide, by decide, by decide, by decide, by decide⟩

/-- C2 (amended): for every message that the classifier routes to
identity verification (its top-scoring intent is `identity_verification`
— keyword scores are floats, so e.g. a message whose balance keywords
outscore its identity keywords routes elsewhere) and that presents a
matching name and account number of an active customer whose failure
counter is below 3, without a security answer, verification returns
`verified = false` with `requires_security_question = true` (the security
question is emitted), the session moves to awaiting-security-answer — and
no session ever moves from unverified (and not awaiting) to verified in a
single step. -/
theorem C2_amended (ctx : Ctx) (b : Bank) (st : SessionState) (message n a : String)
    (c : Customer)
    (_hv : st.is_verified = false)
    (hroute : (analyzeIntent message).primary_intent = "identity_verification")
    (hcred : extractCredentials message (intentEntities message) = .ok (some n, some a))
    (hlook : lookupCustomer b n a = some c)
    (hact : c.account_status = "active") (hatt : c.login_attempts < 3) :
    (processMessage ctx b st message =
      ({ response := securityQuestionMsg c.security_question,
         requires_security_question := true, customer_id := some c.customer_id,
         tools_used := [verifyToolName] },
       b,
       { st with
         awaiting_security_answer := true
         temp_customer_id := some c.customer_id
         temp_name := some n
         temp_account := some a
         transcript := st.transcript ++ [⟨"user", message⟩,
           ⟨"assistant", securityQuestionMsg c.security_question⟩] })) ∧
    (∀ (b2 : Bank) (st2 : SessionState) (m2 : String), st2.is_verified = false →
      st2.awaiting_security_answer = false →
      (processMessage ctx b2 st2 m2).2.2.is_verified = false) := by
  refine ⟨?_, fun b2 st2 m2 hv2 ha2 => step_no_direct_verify ctx b2 st2 m2 hv2 ha2⟩
  have hov := contextOverride_after_user st.transcript message message
    (analyzeIntent message).entities
  have hq := verify_asks_question ctx.now b n a c hlook hact hatt
  simp [processMessage, generateResponse, handleIdentityVerification, hov, hroute,
    hcred, hq, sensitiveIntents, analyzeIntent_entities]

/-- C2 witness: John Doe's credentials message in a fresh session gets the
security question and moves the session to awaiting-security-answer. -/
theorem C2_witness :
    (processMessage {} johnBank (initSession none)
        credentialsMsg).1.requires_security_question = true ∧
    (processMessage {} johnBank (initSession none)
        credentialsMsg).2.2.awaiting_security_answer = true := by
  have h := C2_amended {} johnBank (initSession none) credentialsMsg "John Doe"
    "1234567890" johnDoe rfl (by decide) rfl (by decide) rfl (by decide)
  rw [h.1]
  exact ⟨rfl, rfl⟩

/-- C3: a message whose classified intent is in the sensitive set,
processed in an unverified session, always gets the fixed verification
request: `requires_verification = true`, `next_intent` recording the
requested intent, no tools used, the store untouched, and a response text
that is a constant (so it carries no account data and in particular no
transaction records). -/
theorem C3_unverified_sensitive_gate (ctx : Ctx) (b : Bank) (st : SessionState)
    (message : String)
    (hintent : (analyzeIntent message).primary_intent ∈ sensitiveIntents)
    (hver : st.is_verified = false) :
    processMessage ctx b st message =
      ({ response := credentialRequestMsg, requires_verification := true,
         next_intent := some (analyzeIntent message).primary_intent },
       b,
       { st with transcript := st.transcript ++
           [⟨"user", message⟩, ⟨"assistant", credentialRequestMsg⟩] }) := by
  have hov := contextOverride_after_user st.transcript message message
    (analyzeIntent message).entities
  simp only [sensitiveIntents, List.mem_cons, List.not_mem_nil, or_false] at hintent
  rcases hintent with h | h | h | h | h <;>
    simp [processMessage, generateResponse, hov, h, hver, sensitiveIntents]

/-- C3 witness: an unverified transaction-history request gets the
verification request, remembers the intent, and returns no data. -/
theorem C3_witness :
    (processMessage {} johnBank (initSession none)
        "Show my recent transactions").1.requires_verification = true ∧
    (processMessage {} johnBank (initSession none)
        "Show my recent transactions").1.next_intent = some "transaction_history" ∧
    (processMessage {} johnBank (initSession none)
        "Show my recent transactions").1.tools_used = [] := by
  have h := C3_unverified_sensitive_gate {} johnBank (initSession none)
    "Show my recent transactions" (by decide) rfl
  rw [h]
  exact ⟨rfl, by decide, rfl⟩

/-- C4 counterexample: after reaching awaiting-security-answer and giving
three consecutive incorrect answers, the session is still awaiting with
its pending attempt data intact, and the third reply is "Incorrect
security answer. Please try again." — not the branch-visit message the
claim requires. (The stored failure counter stands at 3; only the next
attempt is refused with the branch message.) -/
theorem C4_counterexample :
    (((runMessages {} johnBank (initSession none) threeFailuresMessages).1.map
        (fun r => r.response)).getLast? = some wrongAnswerMsg) ∧
    ((runMessages {} johnBank (initSession none)
        threeFailuresMessages).2.2.awaiting_security_answer = true) ∧
    ((runMessages {} johnBank (initSession none) threeFailuresMessages).2.2.temp_name
      = some "John Doe") ∧
    ((runMessages {} johnBank (initSession none) threeFailuresMessages).2.1.customers.map
        (fun c => c.login_attempts) = [3]) := by
  refine ⟨by decide, by decide, by decide, by decide⟩

/-- C4 (amended): in the awaiting-security-answer state, each incorrect
answer that the controller routes to the verification handler (the
message classifies as `identity_verification`, as any `"verify …"`
message does; an answer classified elsewhere — e.g. one made mostly of
help keywords — never reaches the verifier and changes no counter) while
the stored counter is below 3 (so also the third consecutive one, which
raises it to 3) increments the counter, keeps the pending attempt data,
and answers "Incorrect security answer. Please try again."; the next
routed verification attempt after the budget is exhausted returns the
session to unverified with the pending attempt data cleared and directs
the user to a branch. -/
theorem C4_amended (ctx : Ctx) (b : Bank) (st : SessionState) (message : String)
    (nm : Option String) (c : Customer)
    (hawait : st.awaiting_security_answer = true)
    (htmp : optTruthy st.temp_customer_id = true)
    (hroute : (analyzeIntent message).primary_intent = "identity_verification")
    (hcred : extractCredentials message (intentEntities message) = .ok (nm, none))
    (hlook : lookupCustomer b (st.temp_name.getD "") (st.temp_account.getD "") = some c)
    (hact : c.account_status = "active")
    (hne : message ≠ "")
    (hwrong : answerMatches c.security_answer message = false) :
    (c.login_attempts < 3 →
      processMessage ctx b st message =
        ({ response := wrongAnswerMsg, verification_failed := true,
           tools_used := [verifyToolName] },
         { b with customers := (updateFirst
             (customerFilter (st.temp_name.getD "") (st.temp_account.getD ""))
             (fun x => { x with login_attempts := x.login_attempts + 1 }) b.customers) },
         { st with transcript := st.transcript ++ [⟨"user", message⟩,
             ⟨"assistant", wrongAnswerMsg⟩] }))
    ∧ (3 ≤ c.login_attempts →
      processMessage ctx b st message =
        ({ response := lockedMsg, verification_failed := true,
           tools_used := [verifyToolName] },
         b,
         { st with
           awaiting_security_answer := false
           temp_customer_id := none
           temp_name := none
           temp_account := none
           transcript := st.transcript ++ [⟨"user", message⟩,
             ⟨"assistant", lockedMsg⟩] })) := by
  have hov := contextOverride_after_user st.transcript message message
    (analyzeIntent message).entities
  constructor
  · intro hatt
    have hw := verify_wrong_answer ctx.now b (st.temp_name.getD "")
      (st.temp_account.getD "") message c hlook hact hatt hne hwrong
    have htm : containsSub (lowerStr wrongAnswerMsg) "too many" = false := by decide
    rcases nm with _ | nval <;>
      simp [processMessage, generateResponse, handleIdentityVerification, hov, hroute,
        hcred, hw, htm, hawait, htmp, sensitiveIntents, analyzeIntent_entities]
  · intro hatt
    have hq := verify_locked ctx.now b (st.temp_name.getD "")
      (st.temp_account.getD "") (some message) c hlook hact hatt
    have htm : containsSub (lowerStr lockedMsg) "too many" = true := by decide
    rcases nm with _ | nval <;>
      simp [processMessage, generateResponse, handleIdentityVerification, hov, hroute,
        hcred, hq, htm, hawait, htmp, sensitiveIntents, analyzeIntent_entities]

/-- C4 witness: one wrong answer in the awaiting state (counter 0) keeps
the session awaiting and replies with the retry message. -/
theorem C4_witness :
    (processMessage {} johnBank awaitingSession wrongAnswerMessage).1.response
      = wrongAnswerMsg ∧
    (processMessage {} johnBank awaitingSession
        wrongAnswerMessage).2.2.awaiting_security_answer = true := by
  have h := (C4_amended {} johnBank awaitingSession wrongAnswerMessage none johnDoe
    rfl rfl (by decide) rfl (by decide) rfl (by decide) (by decide)).1 (by decide)
  rw [h]
  exact ⟨rfl, rfl⟩

/-- C5 counterexample: after three wrong answers in a first session, a
newly created session is locked out immediately — its very first
name+account message is refused with the branch-visit message although no
security answer failed within it, so the attempt budget is not fresh per
session and the counts carry over. -/
theorem C5_counterexample :
    ((runMessages {} johnBank (initSession none) threeFailuresMessages).2.1.customers.map
        (fun c => c.login_attempts) = [3]) ∧
    ((processMessage {}
        (runMessages {} johnBank (initSession none) threeFailuresMessages).2.1
        (initSession none) credentialsMsg).1.response = lockedMsg) ∧
    ((processMessage {}
        (runMessages {} johnBank (initSession none) threeFailuresMessages).2.1
        (initSession none) credentialsMsg).1.requires_security_question = false) := by
  refine ⟨by decide, by decide, by decide⟩

/-- C5 (amended): the verification failure counter is persistent
per-customer state (`Customer.login_attempts` in the account store), not
transient session state: a fresh session carries no attempt data of its
own, every wrong security answer increments the stored customer counter,
and verification is refused with the branch-visit message whenever the
stored counter has reached 3 — in any session, with or without an answer. -/
theorem C5_amended :
    ((initSession none).is_verified = false ∧
     (initSession none).awaiting_security_answer = false ∧
     (initSession none).temp_customer_id = none ∧
     (initSession none).temp_name = none ∧ (initSession none).temp_account = none)
    ∧ (∀ (now : Nat) (b : Bank) (n a ans : String) (c : Customer),
        lookupCustomer b n a = some c → c.account_status = "active" →
        c.login_attempts < 3 → ans ≠ "" → answerMatches c.security_answer ans = false →
        (verifyCustomerIdentity now b n a (some ans)).2.customers =
          updateFirst (customerFilter n a)
            (fun x => { x with login_attempts := x.login_attempts + 1 }) b.customers)
    ∧ (∀ (now : Nat) (b : Bank) (n a : String) (ans : Option String) (c : Customer),
        lookupCustomer b n a = some c → c.account_status = "active" →
        3 ≤ c.login_attempts →
        (verifyCustomerIdentity now b n a ans).1.verified = false ∧
        (verifyCustomerIdentity now b n a ans).1.message = lockedMsg) := by
  refine ⟨⟨rfl, rfl, rfl, rfl, rfl⟩, ?_, ?_⟩
  · intro now b n a ans c hlook hact hatt hne hwrong
    rw [verify_wrong_answer now b n a ans c hlook hact hatt hne hwrong]
  · intro now b n a ans c hlook hact hatt
    rw [verify_locked now b n a ans c hlook hact hatt]
    exact ⟨rfl, rfl⟩

/-- C5 witness: a customer whose stored counter is 3 is refused at the
name+account step of a brand-new interaction. -/
theorem C5_witness :
    (verifyCustomerIdentity 0 johnLockedBank "John Doe" "1234567890" none).1.verified
      = false ∧
    (verifyCustomerIdentity 0 johnLockedBank "John Doe" "1234567890" none).1.message
      = lockedMsg :=
  C5_amended.2.2 0 johnLockedBank "John Doe" "1234567890" none
    { johnDoe with login_attempts := 3 } (by decide) rfl (by decide)

/-- C6: the context override is dead code. The conversation history handed
to the dialogue controller always ends with the user message
`process_message` has just persisted, so the "previous assistant turn"
test (`role == "assistant"` on the last history entry) is false on every
reachable call, and the claimed forcing to `identity_verification` never
happens: after an assistant turn asking for name and account number, a
message containing the word "name" (and no other signal) gets the generic
default reply instead of the identity-verification prompt. -/
theorem C6_override_never_fires :
    (∀ (hist : List Turn) (m m2 : String) (e : Entities),
        contextOverrideFires (hist ++ [⟨"user", m⟩]) m2 e = false)
    ∧ ((processMessage {} johnBank promptedSession "name: Bob Smith").1.response
        = defaultMsg)
    ∧ defaultMsg ≠ identityPromptMsg := by
  refine ⟨contextOverride_after_user, by decide, by decide⟩

/-- C7 counterexample: "a123456" contains a run of six consecutive digits
(`hasSixRun` witnesses it), yet the extractor returns no `account_number`:
the regex `\b\d{6,}\b` requires a word boundary, and the run is glued to
the letter `a`. -/
theorem C7_counterexample :
    ("a123456" = String.mk ('a' :: "123456".toList)) ∧
    (hasSixRun 0 "a123456".toList = true) ∧
    ((intentEntities "a123456").account_number = none) ∧
    (findAccounts "a123456" = []) := by
  refine ⟨by decide, by decide, by decide, by decide⟩

/-- C7 (amended): the extractor returns the first word-boundary-delimited
run of at least 6 digits as `account_number`: for a message
`pre ++ r ++ post` where `r` is such a run whose neighbours are the
message edges or non-word characters and the scanner finds no match in
`pre` alone (since `pre` ends in a non-word character, no run straddles
the cut, so this says exactly that no boundary-delimited run of ≥ 6
digits occurs before `r` — `pre` may still hold digit runs glued to word
characters, such as `"x123456 "`), the result is exactly `r` (also when
`post` holds further runs); a run glued to a letter, digit or underscore
is not extracted at all. -/
theorem C7_amended (pre r post : List Char)
    (hdig : ∀ c ∈ r, c.isDigit = true) (hlen : 6 ≤ r.length)
    (hpre : pre.getLast?.all (fun c => !isWordChar c) = true)
    (hpost : post.head?.all (fun c => !isWordChar c) = true)
    (hfirst : findRunsAux true [] pre = []) :
    (findAccounts (String.mk (pre ++ r ++ post))).head? = some (String.mk r) ∧
    (intentEntities (String.mk (pre ++ r ++ post))).account_number =
      some (String.mk r) := by
  have key : ∃ tl, findRunsAux true [] (pre ++ r ++ post) = r :: tl := by
    have hstep : findRunsAux true [] (pre ++ r ++ post) =
        findRunsAux true [] (r ++ post) := by
      cases pre with
      | nil => simp
      | cons p ps =>
          rw [List.append_assoc]
          exact findRunsAux_noEmit (p :: ps) true [] (r ++ post) (by simp) hpre hfirst
    rw [hstep, findRunsAux_digits r hdig true [] post]
    cases post with
    | nil =>
        refine ⟨[], ?_⟩
        rw [findRunsAux]
        simp [hlen]
    | cons d ds =>
        have hd : isWordChar d = false := by simpa using hpost
        have hd2 : d.isDigit = false := nonword_nondigit hd
        refine ⟨findRunsAux (!isWordChar d) [] ds, ?_⟩
        rw [findRunsAux, if_neg (by simp [hd2])]
        simp [hd, hlen]
  obtain ⟨tl, htl⟩ := key
  have hacc : findAccounts (String.mk (pre ++ r ++ post)) =
      String.mk r :: tl.map String.mk := by
    unfold findAccounts
    rw [show (String.mk (pre ++ r ++ post)).toList = pre ++ r ++ post from rfl, htl]
    rfl
  constructor
  · rw [hacc]; rfl
  · rw [intentEntities_account, hacc]; rfl

/-- C7 witness: in `"x123456 654321"` the first six-digit run is glued to
the letter `x` (no match in the prefix `"x123456 "`), so the extractor
returns the later delimited run `"654321"`. -/
theorem C7_witness :
    (intentEntities (String.mk
        ("x123456 ".toList ++ "654321".toList ++ ([] : List Char)))).account_number =
      some (String.mk "654321".toList) :=
  (C7_amended "x123456 ".toList "654321".toList [] (by decide) (by decide)
    (by decide) (by decide) (by decide)).2

/-- C8 counterexample: "111111" contains no keyword of any category, yet
the classifier returns primary intent `identity_verification` with
confidence 0.5 (the account-number pattern alone produced a candidate),
not `general_inquiry` with low confidence. -/
theorem C8_counterexample :
    (allKeywords.all (fun kw => !containsSub (lowerStr "111111") kw) = true) ∧
    ((analyzeIntent "111111").primary_intent = "identity_verification") ∧
    ((analyzeIntent "111111").confidence = w050) := by
  refine ⟨by decide, by decide, by decide⟩

/-- C8 (amended): the classifier returns its candidate list sorted by
descending score, where scores are the exact IEEE-754 doubles the code
computes (so scores equal in decimal need not tie: `3 * 0.2` is the
double `0.6000000000000001` and sorts strictly above `2 * 0.3 = 0.6`);
the sorted list is a permutation of the list built in category declaration
order, and every class of bitwise-equal float scores keeps that
declaration order (Python's sort is stable); and when no keyword matches
and no account-number pattern is present it falls back to
`general_inquiry` with the float confidence 0.1 (a keyword-free message
that does contain a ≥6-digit run classifies as `identity_verification`
instead). -/
theorem C8_amended :
    (∀ message : String,
        (analyzeIntent message).all_intents.Pairwise (fun p q => q.2 ≤ p.2))
    ∧ (∀ message : String,
        (analyzeIntent message).all_intents.Perm (intentCandidates message))
    ∧ (∀ (message : String) (s : Nat),
        (analyzeIntent message).all_intents.filter (fun p => p.2 == s) =
          (intentCandidates message).filter (fun p => p.2 == s))
    ∧ (∀ message : String,
        (∀ kw ∈ allKeywords, containsSub (lowerStr message) kw = false) →
        findAccounts message = [] →
        (analyzeIntent message).primary_intent = "general_inquiry" ∧
        (analyzeIntent message).confidence = w010) := by
  refine ⟨?_, ?_, ?_, ?_⟩
  · intro message
    exact sorted_sortIntentsDesc (intentCandidates message)
  · intro message
    exact perm_sortIntentsDesc (intentCandidates message)
  · intro message s
    exact filter_sortIntentsDesc s (intentCandidates message)
  · intro message hkw hacc
    unfold analyzeIntent
    rw [intentCandidates_nil message hkw hacc]
    exact ⟨rfl, rfl⟩

/-- C8 witness: a message with no keyword and no digits falls back to
`general_inquiry` with confidence 0.1. -/
theorem C8_witness :
    (analyzeIntent "zzz").primary_intent = "general_inquiry" ∧
    (analyzeIntent "zzz").confidence = w010 :=
  C8_amended.2.2.2 "zzz" (by decide) (by decide)

/-- C9 counterexample: the name factor is SQL `LIKE`, not plain substring
containment: the provided name `"J_hn Doe"` (with the single-character
wildcard `_`) matches the stored `"John Doe"` and the lookup returns the
customer, although the fragment is not a case-insensitive substring of the
stored name. -/
theorem C9_counterexample :
    (lookupCustomer johnBank "J_hn Doe" "1234567890" = some johnDoe) ∧
    (containsSub (lowerStr johnDoe.full_name) (lowerStr "J_hn Doe") = false) := by
  refine ⟨by decide, by decide⟩

/-- C9 (amended): the verification lookup matches the account number
exactly and the provided name by case-insensitive SQL `LIKE` against
`%name%`, where `%` and `_` in the provided name are live wildcards:
every returned customer satisfies exactly these two predicates, any
stored customer satisfying them makes the lookup succeed, and any
fragment literally contained (case-insensitively) in the stored full
name — for example only the surname, or the empty string, which is
contained in every string — passes the name factor. -/
theorem C9_amended :
    (∀ (b : Bank) (n a : String) (c : Customer), lookupCustomer b n a = some c →
        c ∈ b.customers ∧ c.account_number = a ∧ ilikeContains c.full_name n = true)
    ∧ (∀ (b : Bank) (n a : String) (c : Customer), c ∈ b.customers →
        c.account_number = a → ilikeContains c.full_name n = true →
        (lookupCustomer b n a).isSome = true)
    ∧ (∀ stored frag : String,
        containsSub (lowerStr stored) (lowerStr frag) = true →
        ilikeContains stored frag = true)
    ∧ (∀ s : String, containsSub s "" = true) := by
  refine ⟨?_, ?_, ilike_of_containsSub, containsSub_empty_needle⟩
  · intro b n a c h
    have hmem := List.mem_of_find?_eq_some h
    have hp := List.find?_some h
    simp only [customerFilter, Bool.and_eq_true, beq_iff_eq] at hp
    exact ⟨hmem, hp.1, hp.2⟩
  · intro b n a c hm hacc hname
    rw [lookupCustomer, List.find?_isSome]
    exact ⟨c, hm, by simp [customerFilter, hacc, hname]⟩

/-- C9 witness: the contained fragments "doe" and "" pass the name factor
for the stored "John Doe" and the lookup succeeds. -/
theorem C9_witness :
    (lookupCustomer johnBank "doe" "1234567890").isSome = true ∧
    (lookupCustomer johnBank "" "1234567890").isSome = true :=
  ⟨C9_amended.2.1 johnBank "doe" "1234567890" johnDoe (by decide) rfl (by decide),
   C9_amended.2.1 johnBank "" "1234567890" johnDoe (by decide) rfl (by decide)⟩

/-- C10: `update_customer_record` can change only the email, phone and
address fields (with the `updated_at` timestamp): the projection of every
other customer field is unchanged across the call, transactions are
untouched, and a call whose updates contain no updatable field returns
`success = false` with the store entirely unmodified. -/
theorem C10_update_frame (now : Nat) (b : Bank) (cid : String)
    (updates : List (String × String)) :
    ((updateCustomerRecord now b cid updates).2.customers.map frozenView =
      b.customers.map frozenView) ∧
    ((updateCustomerRecord now b cid updates).2.transactions = b.transactions) ∧
    ((∀ p ∈ updates, updatableFields.contains p.1 = false) →
      (updateCustomerRecord now b cid updates).1.success = false ∧
      (updateCustomerRecord now b cid updates).2 = b) := by
  unfold updateCustomerRecord
  split
  · exact ⟨rfl, rfl, fun _ => ⟨rfl, rfl⟩⟩
  · next c hfind =>
      by_cases hemp : ((applyUpdates c updates).2).isEmpty = true
      · rw [if_pos hemp]
        exact ⟨rfl, rfl, fun _ => ⟨rfl, rfl⟩⟩
      · rw [if_neg hemp]
        refine ⟨?_, rfl, ?_⟩
        · exact map_frozen_updateFirst _ _ _ c hfind
            (by rw [← applyUpdates_frozen updates c]; rfl)
        · intro hnone
          exfalso
          apply hemp
          rw [applyUpdates_none updates hnone c]
          rfl

/-- C10 witness: an update naming only a non-updatable field fails and
leaves the store unchanged. -/
theorem C10_witness :
    (updateCustomerRecord 5 johnBank "test123"
        [("account_balance", "0")]).1.success = false ∧
    (updateCustomerRecord 5 johnBank "test123" [("account_balance", "0")]).2
      = johnBank :=
  (C10_update_frame 5 johnBank "test123" [("account_balance", "0")]).2.2 (by decide)

end Nano
